import Mathlib

/-!
# Switch-Keypad: report encoding and endpoint exchange

A shallow embedding of `Joystick.c`: the keypad sampler (`Keypad_Read`), the
report encoder (`GetNextReport`), the endpoint exchange task (`HID_Task`) and
the two USB event handlers, followed by theorems about them.

Conventions of the embedding.

* Machine integers are natural numbers; every store into a fixed-width object
  is followed by an explicit reduction modulo `2 ^ width`.
* The header `Joystick.h` and the LUFA headers are not part of the sources
  read here, so every macro constant they define is a field of `Consts`.
* The hardware and the USB stack are collaborators.  A call to one of them
  appends a `Call` to `World.trace`; the value the collaborator answers is
  read from an `Env`, whose answers may depend on the whole world at the
  moment of the call (registers and complete history of calls).
-/

namespace SwitchKeypad

/-! ## Data model -/

/-- Modelled from the spec: the declaration of `USB_JoystickReport_Input_t`
(in `Joystick.h`) is missing.  The source names the fields `LX`, `LY`, `HAT`
and `Button`; the spec gives the first three as 8-bit values and the buttons
as a two-byte mask.  Any further storage of the struct that `Joystick.c` never
names is kept, byte by byte, in `rest`. -/
structure Report where
  LX : Nat
  LY : Nat
  HAT : Nat
  Button : Nat
  rest : List Nat
deriving DecidableEq

/-- The fields `bmRequestType` and `bRequest` of the global `USB_ControlRequest`. -/
structure ControlRequest where
  bmRequestType : Nat
  bRequest : Nat
deriving DecidableEq

/-- One call made to a collaborator (USB stack or SPI bus), with its arguments.
Buffers handed over for writing are recorded by value. -/
inductive Call where
  | Endpoint_SelectEndpoint (addr : Nat)
  | Endpoint_IsOUTReceived
  | Endpoint_IsReadWriteAllowed
  | Endpoint_IsINReady
  | Endpoint_Read_Stream_LE (len : Nat)
  | Endpoint_Write_Stream_LE (buf : Report) (len : Nat)
  | Endpoint_ClearOUT
  | Endpoint_ClearIN
  | Endpoint_ClearSETUP
  | Endpoint_Write_Control_Stream_LE (buf : Report) (len : Nat)
  | Endpoint_Read_Control_Stream_LE (len : Nat)
  | Endpoint_ConfigureEndpoint (addr type size banks : Nat)
  | SPI_ReceiveByte
deriving DecidableEq

/-- The state the code can see or change: the globals `USB_DeviceState` and
`USB_ControlRequest`, the I/O register `PORTB`, and the history of
collaborator calls made so far (oldest first). -/
structure World where
  USB_DeviceState : Nat
  USB_ControlRequest : ControlRequest
  PORTB : Nat
  trace : List Call
deriving DecidableEq

/-- The answers of the collaborators.  Each answer may depend on the world at
the moment of the call. -/
structure Env where
  Endpoint_IsOUTReceived : World → Bool
  Endpoint_IsReadWriteAllowed : World → Bool
  Endpoint_IsINReady : World → Bool
  Endpoint_Read_Stream_LE : World → Nat → List Nat
  Endpoint_Read_Control_Stream_LE : World → Nat → List Nat
  Endpoint_ConfigureEndpoint : World → Nat → Nat → Nat → Nat → Bool
  SPI_ReceiveByte : World → Nat

/-- The macro constants used by `Joystick.c` whose definitions live in headers
outside the sources read here, together with the two `sizeof` values. -/
structure Consts where
  JOYSTICK_MIN : Nat
  JOYSTICK_DEFAULT : Nat
  JOYSTICK_MAX : Nat
  HAT_DEFAULT : Nat
  SWITCH_L : Nat
  SWITCH_B : Nat
  SWITCH_Y : Nat
  SWITCH_START : Nat
  SWITCH_HOME : Nat
  SWITCH_R : Nat
  SWITCH_A : Nat
  SWITCH_X : Nat
  SH_LD : Nat
  JOYSTICK_OUT_EPADDR : Nat
  JOYSTICK_IN_EPADDR : Nat
  JOYSTICK_EPSIZE : Nat
  EP_TYPE_INTERRUPT : Nat
  DEVICE_STATE_Configured : Nat
  HID_REQ_GetReport : Nat
  HID_REQ_SetReport : Nat
  REQDIR_DEVICETOHOST : Nat
  REQDIR_HOSTTODEVICE : Nat
  REQTYPE_CLASS : Nat
  REQREC_INTERFACE : Nat
  sizeof_USB_JoystickReport_Input_t : Nat
  sizeof_USB_JoystickReport_Output_t : Nat

/-- The three stick levels and the hat constant are representable in the
8-bit fields they are stored into. -/
abbrev Consts.LevelsFit (c : Consts) : Prop :=
  c.JOYSTICK_MIN < 256 ∧ c.JOYSTICK_DEFAULT < 256 ∧ c.JOYSTICK_MAX < 256 ∧ c.HAT_DEFAULT < 256

/-- The eight button flags are representable in the 16-bit `Button` field. -/
abbrev Consts.FlagsFit (c : Consts) : Prop :=
  c.SWITCH_L < 65536 ∧ c.SWITCH_B < 65536 ∧ c.SWITCH_Y < 65536 ∧ c.SWITCH_START < 65536 ∧
  c.SWITCH_HOME < 65536 ∧ c.SWITCH_R < 65536 ∧ c.SWITCH_A < 65536 ∧ c.SWITCH_X < 65536

/-- The three stick levels are pairwise distinct. -/
abbrev Consts.LevelsDistinct (c : Consts) : Prop :=
  c.JOYSTICK_MIN ≠ c.JOYSTICK_DEFAULT ∧ c.JOYSTICK_MIN ≠ c.JOYSTICK_MAX ∧
  c.JOYSTICK_DEFAULT ≠ c.JOYSTICK_MAX

/-- The global table `ButtonMap` (lines 35-52). -/
def ButtonMap : List Nat :=
  [0x01, 0x02, 0x04, 0x08, 0x10, 0x20, 0x40, 0x80,
   0x100, 0x200, 0x400, 0x800, 0x1000, 0x2000, 0x4000, 0x8000]

/-! ## Collaborator calls -/

/-- Append one call to the history. -/
def World.log (w : World) (e : Call) : World :=
  { w with trace := w.trace ++ [e] }

def Endpoint_SelectEndpoint (w : World) (addr : Nat) : World :=
  w.log (Call.Endpoint_SelectEndpoint addr)

def Endpoint_IsOUTReceived (env : Env) (w : World) : World × Bool :=
  (w.log Call.Endpoint_IsOUTReceived, env.Endpoint_IsOUTReceived w)

def Endpoint_IsReadWriteAllowed (env : Env) (w : World) : World × Bool :=
  (w.log Call.Endpoint_IsReadWriteAllowed, env.Endpoint_IsReadWriteAllowed w)

def Endpoint_IsINReady (env : Env) (w : World) : World × Bool :=
  (w.log Call.Endpoint_IsINReady, env.Endpoint_IsINReady w)

/-- Reads `len` bytes from the selected endpoint; the second component is the
new content of the destination buffer. -/
def Endpoint_Read_Stream_LE (env : Env) (w : World) (len : Nat) : World × List Nat :=
  (w.log (Call.Endpoint_Read_Stream_LE len), env.Endpoint_Read_Stream_LE w len)

def Endpoint_Write_Stream_LE (w : World) (buf : Report) (len : Nat) : World :=
  w.log (Call.Endpoint_Write_Stream_LE buf len)

def Endpoint_ClearOUT (w : World) : World := w.log Call.Endpoint_ClearOUT

def Endpoint_ClearIN (w : World) : World := w.log Call.Endpoint_ClearIN

def Endpoint_ClearSETUP (w : World) : World := w.log Call.Endpoint_ClearSETUP

def Endpoint_Write_Control_Stream_LE (w : World) (buf : Report) (len : Nat) : World :=
  w.log (Call.Endpoint_Write_Control_Stream_LE buf len)

def Endpoint_Read_Control_Stream_LE (env : Env) (w : World) (len : Nat) : World × List Nat :=
  (w.log (Call.Endpoint_Read_Control_Stream_LE len), env.Endpoint_Read_Control_Stream_LE w len)

def Endpoint_ConfigureEndpoint (env : Env) (w : World) (addr type size banks : Nat) :
    World × Bool :=
  (w.log (Call.Endpoint_ConfigureEndpoint addr type size banks),
   env.Endpoint_ConfigureEndpoint w addr type size banks)

/-- The byte delivered by the SPI bus; the return type is `uint8_t`. -/
def SPI_ReceiveByte (env : Env) (w : World) : World × Nat :=
  (w.log Call.SPI_ReceiveByte, env.SPI_ReceiveByte w % 256)

/-! ## The functions of `Joystick.c` -/

/-- `Keypad_Read` (lines 278-286).  `state` is a `uint16_t`; `int` has 16 bits
on the AVR target, so the shifted second byte is reduced modulo `2 ^ 16`. -/
def Keypad_Read (c : Consts) (env : Env) (w : World) : World × Nat :=
  let state := 0
  let w := { w with PORTB := (w.PORTB ||| (1 <<< c.SH_LD)) % 256 }
  let r0 := SPI_ReceiveByte env w
  let w := r0.1
  let state := (state ||| r0.2) % 65536
  let r1 := SPI_ReceiveByte env w
  let w := r1.1
  let state := (state ||| (r1.2 <<< 8) % 65536) % 65536
  let w := { w with PORTB := (w.PORTB &&& (65535 - (1 <<< c.SH_LD) % 65536)) % 256 }
  (w, state)

/-- The effect of `memset(ReportData, 0, sizeof(USB_JoystickReport_Input_t))`:
every byte of the struct becomes zero. -/
def memset_zero (r : Report) : Report :=
  { LX := 0, LY := 0, HAT := 0, Button := 0, rest := List.replicate r.rest.length 0 }

/-- `GetNextReport` (lines 206-276).  `ReportData` is the content of the
caller's buffer on entry; the result is the world after the call and the
content of the buffer on return. -/
def GetNextReport (c : Consts) (env : Env) (w : World) (ReportData : Report) :
    World × Report :=
  let ReportData := memset_zero ReportData
  let ReportData := { ReportData with LX := c.JOYSTICK_DEFAULT % 256 }
  let ReportData := { ReportData with LY := c.JOYSTICK_DEFAULT % 256 }
  let ReportData := { ReportData with HAT := c.HAT_DEFAULT % 256 }
  let k := Keypad_Read c env w
  let w := k.1
  let Keypad_State := k.2
  let ReportData :=
    if (Keypad_State &&& (1 <<< 2) != 0) && !(Keypad_State &&& (1 <<< 10) != 0) then
      { ReportData with LX := c.JOYSTICK_MIN % 256 }
    else ReportData
  let ReportData :=
    if (Keypad_State &&& (1 <<< 10) != 0) && !(Keypad_State &&& (1 <<< 2) != 0) then
      { ReportData with LX := c.JOYSTICK_MAX % 256 }
    else ReportData
  let ReportData :=
    if (Keypad_State &&& (1 <<< 7) != 0) && !(Keypad_State &&& (1 <<< 5) != 0) then
      { ReportData with LY := c.JOYSTICK_MIN % 256 }
    else ReportData
  let ReportData :=
    if (Keypad_State &&& (1 <<< 5) != 0) && !(Keypad_State &&& (1 <<< 7) != 0) then
      { ReportData with LY := c.JOYSTICK_MAX % 256 }
    else ReportData
  let ReportData :=
    if Keypad_State &&& (1 <<< 0) != 0 then
      { ReportData with Button := (ReportData.Button ||| c.SWITCH_L) % 65536 }
    else ReportData
  let ReportData :=
    if Keypad_State &&& (1 <<< 1) != 0 then
      { ReportData with Button := (ReportData.Button ||| c.SWITCH_B) % 65536 }
    else ReportData
  let ReportData :=
    if Keypad_State &&& (1 <<< 3) != 0 then
      { ReportData with Button := (ReportData.Button ||| c.SWITCH_Y) % 65536 }
    else ReportData
  let ReportData :=
    if Keypad_State &&& (1 <<< 4) != 0 then
      { ReportData with Button := (ReportData.Button ||| c.SWITCH_START) % 65536 }
    else ReportData
  let ReportData :=
    if Keypad_State &&& (1 <<< 6) != 0 then
      { ReportData with Button := (ReportData.Button ||| c.SWITCH_HOME) % 65536 }
    else ReportData
  let ReportData :=
    if Keypad_State &&& (1 <<< 8) != 0 then
      { ReportData with Button := (ReportData.Button ||| c.SWITCH_R) % 65536 }
    else ReportData
  let ReportData :=
    if Keypad_State &&& (1 <<< 9) != 0 then
      { ReportData with Button := (ReportData.Button ||| c.SWITCH_A) % 65536 }
    else ReportData
  let ReportData :=
    if Keypad_State &&& (1 <<< 11) != 0 then
      { ReportData with Button := (ReportData.Button ||| c.SWITCH_X) % 65536 }
    else ReportData
  (w, ReportData)

/-- The OUT half of `HID_Task` (lines 167-184).  The bytes read into the local
`JoystickOutputData` are dropped when the block ends. -/
def HID_Task_OUT (c : Consts) (env : Env) (w : World) : World :=
  let w := Endpoint_SelectEndpoint w c.JOYSTICK_OUT_EPADDR
  let q := Endpoint_IsOUTReceived env w
  let w := q.1
  if q.2 then
    let a := Endpoint_IsReadWriteAllowed env w
    let w := a.1
    let w :=
      if a.2 then
        (Endpoint_Read_Stream_LE env w c.sizeof_USB_JoystickReport_Output_t).1
      else w
    Endpoint_ClearOUT w
  else w

/-- The IN half of `HID_Task` (lines 186-203).  `JoystickInputData` is the
indeterminate initial content of the local report buffer. -/
def HID_Task_IN (c : Consts) (env : Env) (w : World) (JoystickInputData : Report) : World :=
  let w := Endpoint_SelectEndpoint w c.JOYSTICK_IN_EPADDR
  let q := Endpoint_IsINReady env w
  let w := q.1
  if q.2 then
    let g := GetNextReport c env w JoystickInputData
    let w := g.1
    let JoystickInputData := g.2
    let w := Endpoint_Write_Stream_LE w JoystickInputData c.sizeof_USB_JoystickReport_Input_t
    Endpoint_ClearIN w
  else w

/-- `HID_Task` (lines 162-203): the guard on `USB_DeviceState`, then the OUT
half, then the IN half. -/
def HID_Task (c : Consts) (env : Env) (w : World) (JoystickInputData : Report) : World :=
  if w.USB_DeviceState != c.DEVICE_STATE_Configured then w
  else
    let w := HID_Task_OUT c env w
    HID_Task_IN c env w JoystickInputData

/-- `EVENT_USB_Device_ControlRequest` (lines 123-159).  `JoystickInputData` is
the indeterminate initial content of the local report buffer of the
`GetReport` branch. -/
def EVENT_USB_Device_ControlRequest (c : Consts) (env : Env) (w : World)
    (JoystickInputData : Report) : World :=
  if w.USB_ControlRequest.bRequest = c.HID_REQ_GetReport then
    if w.USB_ControlRequest.bmRequestType =
        (c.REQDIR_DEVICETOHOST ||| c.REQTYPE_CLASS ||| c.REQREC_INTERFACE) then
      let g := GetNextReport c env w JoystickInputData
      let w := g.1
      let JoystickInputData := g.2
      let w := Endpoint_ClearSETUP w
      let w := Endpoint_Write_Control_Stream_LE w JoystickInputData
        c.sizeof_USB_JoystickReport_Input_t
      Endpoint_ClearOUT w
    else w
  else if w.USB_ControlRequest.bRequest = c.HID_REQ_SetReport then
    if w.USB_ControlRequest.bmRequestType =
        (c.REQDIR_HOSTTODEVICE ||| c.REQTYPE_CLASS ||| c.REQREC_INTERFACE) then
      let w := Endpoint_ClearSETUP w
      let w := (Endpoint_Read_Control_Stream_LE env w c.sizeof_USB_JoystickReport_Output_t).1
      Endpoint_ClearIN w
    else w
  else w

/-- `EVENT_USB_Device_ConfigurationChanged` (lines 112-120).  The result is
the world after the call and the final value of the local `ConfigSuccess`. -/
def EVENT_USB_Device_ConfigurationChanged (c : Consts) (env : Env) (w : World) :
    World × Bool :=
  let ConfigSuccess := true
  let r0 := Endpoint_ConfigureEndpoint env w c.JOYSTICK_OUT_EPADDR c.EP_TYPE_INTERRUPT
    c.JOYSTICK_EPSIZE 1
  let w := r0.1
  let ConfigSuccess := ConfigSuccess && r0.2
  let r1 := Endpoint_ConfigureEndpoint env w c.JOYSTICK_IN_EPADDR c.EP_TYPE_INTERRUPT
    c.JOYSTICK_EPSIZE 1
  let w := r1.1
  let ConfigSuccess := ConfigSuccess && r1.2
  (w, ConfigSuccess)

/-! ## Sample instantiation

A concrete set of constants and a concrete environment, used to evaluate the
definitions on explicit inputs. -/

/-- Sample values for the header constants: stick levels 0 / 128 / 255, hat
neutral 8, one-hot button flags, and the usual HID request codes. -/
def sampleConsts : Consts :=
  { JOYSTICK_MIN := 0, JOYSTICK_DEFAULT := 128, JOYSTICK_MAX := 255, HAT_DEFAULT := 8,
    SWITCH_L := 0x10, SWITCH_B := 0x02, SWITCH_Y := 0x01, SWITCH_START := 0x200,
    SWITCH_HOME := 0x1000, SWITCH_R := 0x20, SWITCH_A := 0x04, SWITCH_X := 0x08,
    SH_LD := 0, JOYSTICK_OUT_EPADDR := 2, JOYSTICK_IN_EPADDR := 129, JOYSTICK_EPSIZE := 64,
    EP_TYPE_INTERRUPT := 3, DEVICE_STATE_Configured := 4,
    HID_REQ_GetReport := 1, HID_REQ_SetReport := 9,
    REQDIR_DEVICETOHOST := 128, REQDIR_HOSTTODEVICE := 0, REQTYPE_CLASS := 32,
    REQREC_INTERFACE := 1,
    sizeof_USB_JoystickReport_Input_t := 8, sizeof_USB_JoystickReport_Output_t := 8 }

/-- Is this call an SPI byte reception? -/
def Call.isSPI : Call → Bool
  | Call.SPI_ReceiveByte => true
  | _ => false

/-- An environment whose shift registers hold the 16-bit state `raw` (low byte
delivered on the first, third, ... reception, high byte on the others) and
whose endpoint queries answer the three given booleans. -/
def sampleEnv (raw : Nat) (outReceived rwAllowed inReady : Bool) : Env :=
  { Endpoint_IsOUTReceived := fun _ => outReceived
    Endpoint_IsReadWriteAllowed := fun _ => rwAllowed
    Endpoint_IsINReady := fun _ => inReady
    Endpoint_Read_Stream_LE := fun _ len => List.replicate len 0
    Endpoint_Read_Control_Stream_LE := fun _ len => List.replicate len 0
    Endpoint_ConfigureEndpoint := fun _ _ _ _ _ => true
    SPI_ReceiveByte := fun w =>
      if (w.trace.filter Call.isSPI).length % 2 = 0 then raw % 256 else raw / 256 % 256 }

/-- A world with the given device state, no pending history. -/
def sampleWorld (deviceState : Nat) : World :=
  { USB_DeviceState := deviceState, USB_ControlRequest := { bmRequestType := 0, bRequest := 0 },
    PORTB := 0, trace := [] }

/-- A report buffer holding leftover content. -/
def dirtyReport : Report :=
  { LX := 17, LY := 34, HAT := 51, Button := 0xFFFF, rest := [0xAA, 0xBB, 0xCC] }

/-- The flag `flag` when `b` holds, no flag otherwise. -/
def sel (b : Bool) (flag : Nat) : Nat := if b then flag else 0

/-- The calls appended to the history between the worlds `w` and `w'`. -/
def emitted (w w' : World) : List Call := w'.trace.drop w.trace.length

/-- The world in which `HID_Task` asks `Endpoint_IsOUTReceived`: the entry
world after the OUT endpoint has been selected. -/
def atOUTReceived (c : Consts) (w : World) : World :=
  Endpoint_SelectEndpoint w c.JOYSTICK_OUT_EPADDR

/-- The world in which `HID_Task` asks `Endpoint_IsReadWriteAllowed`. -/
def atReadWriteAllowed (c : Consts) (w : World) : World :=
  (atOUTReceived c w).log Call.Endpoint_IsOUTReceived

/-- The world in which `HID_Task` asks `Endpoint_IsINReady`: the world left by
the OUT half, after the IN endpoint has been selected. -/
def atINReady (c : Consts) (env : Env) (w : World) : World :=
  Endpoint_SelectEndpoint (HID_Task_OUT c env w) c.JOYSTICK_IN_EPADDR

/-- The world in which `HID_Task` enters `GetNextReport`. -/
def atSample (c : Consts) (env : Env) (w : World) : World :=
  (atINReady c env w).log Call.Endpoint_IsINReady

/-- A world with device state 4 whose pending control request carries the
given `bmRequestType` and `bRequest`; registers cleared, no history. -/
def sampleRequestWorld (bmRequestType bRequest : Nat) : World :=
  { USB_DeviceState := 4,
    USB_ControlRequest := { bmRequestType := bmRequestType, bRequest := bRequest },
    PORTB := 0, trace := [] }

/-- An environment whose SPI bus delivers `b0` when asked in a world with
exactly the history of `w`, and `b1` in every other world; the endpoint
queries answer false. -/
def bytesEnv (w : World) (b0 b1 : Nat) : Env :=
  { Endpoint_IsOUTReceived := fun _ => false
    Endpoint_IsReadWriteAllowed := fun _ => false
    Endpoint_IsINReady := fun _ => false
    Endpoint_Read_Stream_LE := fun _ len => List.replicate len 0
    Endpoint_Read_Control_Stream_LE := fun _ len => List.replicate len 0
    Endpoint_ConfigureEndpoint := fun _ _ _ _ _ => true
    SPI_ReceiveByte := fun w' => if w'.trace.length = w.trace.length then b0 else b1 }

/-- The operations of the OUT half of `HID_Task` other than the endpoint
selection: receipt query, read/write query, stream read, `ClearOUT`. -/
def Call.isOUTside : Call → Bool
  | Call.Endpoint_IsOUTReceived => true
  | Call.Endpoint_IsReadWriteAllowed => true
  | Call.Endpoint_Read_Stream_LE _ => true
  | Call.Endpoint_ClearOUT => true
  | _ => false

/-- The operations of the IN half of `HID_Task` other than the endpoint
selection: readiness query, SPI reception (keypad sample), stream write,
`ClearIN`. -/
def Call.isINside : Call → Bool
  | Call.Endpoint_IsINReady => true
  | Call.SPI_ReceiveByte => true
  | Call.Endpoint_Write_Stream_LE _ _ => true
  | Call.Endpoint_ClearIN => true
  | _ => false

/-! ## Auxiliary lemmas -/

/-- The C test `x & (1 << k)` is the test of bit `k`. -/
theorem and_one_shl (x k : Nat) : (x &&& (1 <<< k) != 0) = x.testBit k := by
  have h : x &&& (1 <<< k) = if x.testBit k then 2 ^ k else 0 := by
    apply Nat.eq_of_testBit_eq
    intro i
    rw [Nat.one_shiftLeft, Nat.testBit_and, Nat.testBit_two_pow]
    by_cases hk : k = i
    · subst hk
      cases hx : x.testBit k <;> simp [Nat.testBit_two_pow_self]
    · cases hx : x.testBit k <;> simp [hk, Nat.testBit_two_pow_of_ne hk]
  rw [h]
  cases hx : x.testBit k
  · simp
  · have : 2 ^ k ≠ 0 := by positivity
    simp [this]

theorem or_mod_two_pow (a b n : Nat) : (a ||| b) % 2 ^ n = (a % 2 ^ n) ||| (b % 2 ^ n) := by
  apply Nat.eq_of_testBit_eq
  intro i
  simp [Nat.testBit_mod_two_pow, Nat.testBit_or, Bool.and_or_distrib_left]

theorem button_step (b : Bool) (s f : Nat) :
    (if b = true then (s % 65536 ||| f) % 65536 else s % 65536) = (s ||| sel b f) % 65536 := by
  cases b
  · simp [sel]
  · simp only [sel, if_true]
    rw [show (65536 : Nat) = 2 ^ 16 from rfl, or_mod_two_pow, or_mod_two_pow s f, Nat.mod_mod]

theorem button_first (b : Bool) (f : Nat) :
    (if b = true then (0 ||| f) % 65536 else 0) = (sel b f) % 65536 := by
  cases b <;> simp [sel]

theorem sel_lt (b : Bool) (f : Nat) (h : f < 2 ^ 16) : sel b f < 2 ^ 16 := by
  cases b
  · simp [sel]
  · simpa [sel] using h

theorem testBit_sel_two_pow (b : Bool) (k j : Nat) :
    (sel b (2 ^ k)).testBit j = (b && decide (k = j)) := by
  cases b <;> simp [sel, Nat.testBit_two_pow]

theorem Report.eq_of_fields (a b : Report) (h1 : a.LX = b.LX) (h2 : a.LY = b.LY)
    (h3 : a.HAT = b.HAT) (h4 : a.Button = b.Button) (h5 : a.rest = b.rest) : a = b := by
  cases a
  cases b
  simp_all

/-! ## The report encoder, field by field -/

theorem GetNextReport_world (c : Consts) (env : Env) (w : World) (buf : Report) :
    (GetNextReport c env w buf).1 = (Keypad_Read c env w).1 := rfl

theorem Keypad_Read_trace (c : Consts) (env : Env) (w : World) :
    (Keypad_Read c env w).1.trace = w.trace ++ [Call.SPI_ReceiveByte, Call.SPI_ReceiveByte] := by
  simp [Keypad_Read, SPI_ReceiveByte, World.log]

theorem Keypad_Read_lt (c : Consts) (env : Env) (w : World) :
    (Keypad_Read c env w).2 < 65536 := by
  simp only [Keypad_Read]
  exact Nat.mod_lt _ (by decide)

theorem Keypad_Read_value (c : Consts) (env : Env) (w : World) :
    (Keypad_Read c env w).2 =
      (SPI_ReceiveByte env { w with PORTB := (w.PORTB ||| (1 <<< c.SH_LD)) % 256 }).2 +
      256 * (SPI_ReceiveByte env
        (SPI_ReceiveByte env { w with PORTB := (w.PORTB ||| (1 <<< c.SH_LD)) % 256 }).1).2 := by
  simp only [Keypad_Read, SPI_ReceiveByte]
  generalize env.SPI_ReceiveByte _ = a
  generalize env.SPI_ReceiveByte _ = b
  have ha : a % 256 < 2 ^ 8 := Nat.mod_lt _ (by decide)
  have hb : b % 256 < 256 := Nat.mod_lt _ (by decide)
  rw [Nat.zero_or, Nat.shiftLeft_eq, Nat.or_comm, show (256:Nat) = 2 ^ 8 from rfl] at *
  have h1 : a % 2 ^ 8 % 65536 = a % 2 ^ 8 := Nat.mod_eq_of_lt (by omega)
  have h2 : b % 2 ^ 8 * 2 ^ 8 % 65536 = b % 2 ^ 8 * 2 ^ 8 := Nat.mod_eq_of_lt (by omega)
  rw [h1, h2, Nat.mul_comm (b % 2 ^ 8) (2 ^ 8), ← Nat.mul_add_lt_is_or ha]
  omega

/-- Every 16-bit keypad state is the sample of some call: the sample environment
holding `raw` delivers it, from any world with an even number of earlier SPI
receptions. -/
theorem Keypad_Read_sampleEnv (c : Consts) (w : World) (raw : Nat) (a b d : Bool)
    (hraw : raw < 65536) (hw : (w.trace.filter Call.isSPI).length % 2 = 0) :
    (Keypad_Read c (sampleEnv raw a b d) w).2 = raw := by
  rw [Keypad_Read_value]
  simp only [SPI_ReceiveByte, sampleEnv, World.log, List.filter_append, List.length_append, hw]
  have h1 : ((w.trace.filter Call.isSPI).length + 1) % 2 ≠ 0 := by omega
  simp [Call.isSPI, h1]
  omega

theorem GetNextReport_LX (c : Consts) (env : Env) (w : World) (buf : Report) :
    (GetNextReport c env w buf).2.LX =
      if ((Keypad_Read c env w).2.testBit 2 && !(Keypad_Read c env w).2.testBit 10) then
        c.JOYSTICK_MIN % 256
      else if ((Keypad_Read c env w).2.testBit 10 && !(Keypad_Read c env w).2.testBit 2) then
        c.JOYSTICK_MAX % 256
      else c.JOYSTICK_DEFAULT % 256 := by
  simp only [GetNextReport, and_one_shl, apply_ite Report.LX, ite_self]
  cases (Keypad_Read c env w).2.testBit 2 <;> cases (Keypad_Read c env w).2.testBit 10 <;> rfl

theorem GetNextReport_LY (c : Consts) (env : Env) (w : World) (buf : Report) :
    (GetNextReport c env w buf).2.LY =
      if ((Keypad_Read c env w).2.testBit 7 && !(Keypad_Read c env w).2.testBit 5) then
        c.JOYSTICK_MIN % 256
      else if ((Keypad_Read c env w).2.testBit 5 && !(Keypad_Read c env w).2.testBit 7) then
        c.JOYSTICK_MAX % 256
      else c.JOYSTICK_DEFAULT % 256 := by
  simp only [GetNextReport, and_one_shl, apply_ite Report.LY, ite_self]
  cases (Keypad_Read c env w).2.testBit 7 <;> cases (Keypad_Read c env w).2.testBit 5 <;> rfl

theorem GetNextReport_HAT (c : Consts) (env : Env) (w : World) (buf : Report) :
    (GetNextReport c env w buf).2.HAT = c.HAT_DEFAULT % 256 := by
  simp only [GetNextReport, apply_ite Report.HAT, ite_self]

theorem GetNextReport_rest (c : Consts) (env : Env) (w : World) (buf : Report) :
    (GetNextReport c env w buf).2.rest = List.replicate buf.rest.length 0 := by
  simp only [GetNextReport, apply_ite Report.rest, ite_self, memset_zero]

theorem GetNextReport_Button (c : Consts) (env : Env) (w : World) (buf : Report) :
    (GetNextReport c env w buf).2.Button =
      (sel ((Keypad_Read c env w).2.testBit 0) c.SWITCH_L |||
       sel ((Keypad_Read c env w).2.testBit 1) c.SWITCH_B |||
       sel ((Keypad_Read c env w).2.testBit 3) c.SWITCH_Y |||
       sel ((Keypad_Read c env w).2.testBit 4) c.SWITCH_START |||
       sel ((Keypad_Read c env w).2.testBit 6) c.SWITCH_HOME |||
       sel ((Keypad_Read c env w).2.testBit 8) c.SWITCH_R |||
       sel ((Keypad_Read c env w).2.testBit 9) c.SWITCH_A |||
       sel ((Keypad_Read c env w).2.testBit 11) c.SWITCH_X) % 65536 := by
  simp only [GetNextReport, and_one_shl, apply_ite Report.Button, ite_self, memset_zero]
  simp only [button_first, button_step]

/-- Two calls whose samples agree on bits 0-11, on buffers of the same struct
size, leave the same report. -/
theorem GetNextReport_congr (c : Consts) (env env' : Env) (w w' : World) (buf buf' : Report)
    (hlen : buf.rest.length = buf'.rest.length)
    (hbits : ∀ i, i < 12 →
      (Keypad_Read c env w).2.testBit i = (Keypad_Read c env' w').2.testBit i) :
    (GetNextReport c env w buf).2 = (GetNextReport c env' w' buf').2 := by
  apply Report.eq_of_fields
  · rw [GetNextReport_LX, GetNextReport_LX, hbits 2 (by decide), hbits 10 (by decide)]
  · rw [GetNextReport_LY, GetNextReport_LY, hbits 7 (by decide), hbits 5 (by decide)]
  · rw [GetNextReport_HAT, GetNextReport_HAT]
  · rw [GetNextReport_Button, GetNextReport_Button, hbits 0 (by decide), hbits 1 (by decide),
      hbits 3 (by decide), hbits 4 (by decide), hbits 6 (by decide), hbits 8 (by decide),
      hbits 9 (by decide), hbits 11 (by decide)]
  · rw [GetNextReport_rest, GetNextReport_rest, hlen]

/-! ## The report encoder: claims -/

/-- C1: for every keypad state `raw` obtained by the sample of a call to
`GetNextReport`, the report has `LX = JOYSTICK_MIN` exactly when bit 2 of `raw`
is set and bit 10 is clear, `LX = JOYSTICK_MAX` exactly when bit 10 is set and
bit 2 is clear, and `LX = JOYSTICK_DEFAULT` exactly when both or neither are
set; any other call whose sample agrees with `raw` on bits 2 and 10 yields the
same `LX`.  The level constants are assumed pairwise distinct and
representable in the 8-bit field. -/
theorem C1_LX_opposing_pair (c : Consts) (env : Env) (w : World) (buf : Report) (raw : Nat)
    (hraw : (Keypad_Read c env w).2 = raw)
    (hfit : c.LevelsFit) (hdist : c.LevelsDistinct) :
    ((GetNextReport c env w buf).2.LX = c.JOYSTICK_MIN ↔
        (raw.testBit 2 = true ∧ raw.testBit 10 = false)) ∧
    ((GetNextReport c env w buf).2.LX = c.JOYSTICK_MAX ↔
        (raw.testBit 10 = true ∧ raw.testBit 2 = false)) ∧
    ((GetNextReport c env w buf).2.LX = c.JOYSTICK_DEFAULT ↔
        raw.testBit 2 = raw.testBit 10) ∧
    (∀ (env' : Env) (w' : World) (buf' : Report),
        (Keypad_Read c env' w').2.testBit 2 = raw.testBit 2 →
        (Keypad_Read c env' w').2.testBit 10 = raw.testBit 10 →
        (GetNextReport c env' w' buf').2.LX = (GetNextReport c env w buf).2.LX) := by
  obtain ⟨hmin, hdef, hmax, -⟩ := hfit
  obtain ⟨h1, h2, h3⟩ := hdist
  subst hraw
  refine ⟨?_, ?_, ?_, ?_⟩
  · rw [GetNextReport_LX, Nat.mod_eq_of_lt hmin, Nat.mod_eq_of_lt hdef, Nat.mod_eq_of_lt hmax]
    cases (Keypad_Read c env w).2.testBit 2 <;> cases (Keypad_Read c env w).2.testBit 10 <;>
      simp [h1, h2, h3, Ne.symm h1, Ne.symm h2, Ne.symm h3]
  · rw [GetNextReport_LX, Nat.mod_eq_of_lt hmin, Nat.mod_eq_of_lt hdef, Nat.mod_eq_of_lt hmax]
    cases (Keypad_Read c env w).2.testBit 2 <;> cases (Keypad_Read c env w).2.testBit 10 <;>
      simp [h1, h2, h3, Ne.symm h1, Ne.symm h2, Ne.symm h3]
  · rw [GetNextReport_LX, Nat.mod_eq_of_lt hmin, Nat.mod_eq_of_lt hdef, Nat.mod_eq_of_lt hmax]
    cases (Keypad_Read c env w).2.testBit 2 <;> cases (Keypad_Read c env w).2.testBit 10 <;>
      simp [h1, h2, h3, Ne.symm h1, Ne.symm h2, Ne.symm h3]
  · intro env' w' buf' e2 e10
    rw [GetNextReport_LX, GetNextReport_LX, e2, e10]

/-- C2: for every keypad state `raw` obtained by the sample of a call to
`GetNextReport`, the report has `LY = JOYSTICK_MIN` exactly when bit 7 (up) is
set and bit 5 (down) is clear, `LY = JOYSTICK_MAX` exactly when bit 5 is set
and bit 7 is clear, and `LY = JOYSTICK_DEFAULT` exactly when both or neither
are set; any other call whose sample agrees with `raw` on bits 5 and 7 yields
the same `LY`.  The level constants are assumed pairwise distinct and
representable in the 8-bit field. -/
theorem C2_LY_opposing_pair (c : Consts) (env : Env) (w : World) (buf : Report) (raw : Nat)
    (hraw : (Keypad_Read c env w).2 = raw)
    (hfit : c.LevelsFit) (hdist : c.LevelsDistinct) :
    ((GetNextReport c env w buf).2.LY = c.JOYSTICK_MIN ↔
        (raw.testBit 7 = true ∧ raw.testBit 5 = false)) ∧
    ((GetNextReport c env w buf).2.LY = c.JOYSTICK_MAX ↔
        (raw.testBit 5 = true ∧ raw.testBit 7 = false)) ∧
    ((GetNextReport c env w buf).2.LY = c.JOYSTICK_DEFAULT ↔
        raw.testBit 5 = raw.testBit 7) ∧
    (∀ (env' : Env) (w' : World) (buf' : Report),
        (Keypad_Read c env' w').2.testBit 5 = raw.testBit 5 →
        (Keypad_Read c env' w').2.testBit 7 = raw.testBit 7 →
        (GetNextReport c env' w' buf').2.LY = (GetNextReport c env w buf).2.LY) := by
  obtain ⟨hmin, hdef, hmax, -⟩ := hfit
  obtain ⟨h1, h2, h3⟩ := hdist
  subst hraw
  refine ⟨?_, ?_, ?_, ?_⟩
  · rw [GetNextReport_LY, Nat.mod_eq_of_lt hmin, Nat.mod_eq_of_lt hdef, Nat.mod_eq_of_lt hmax]
    cases (Keypad_Read c env w).2.testBit 7 <;> cases (Keypad_Read c env w).2.testBit 5 <;>
      simp [h1, h2, h3, Ne.symm h1, Ne.symm h2, Ne.symm h3]
  · rw [GetNextReport_LY, Nat.mod_eq_of_lt hmin, Nat.mod_eq_of_lt hdef, Nat.mod_eq_of_lt hmax]
    cases (Keypad_Read c env w).2.testBit 7 <;> cases (Keypad_Read c env w).2.testBit 5 <;>
      simp [h1, h2, h3, Ne.symm h1, Ne.symm h2, Ne.symm h3]
  · rw [GetNextReport_LY, Nat.mod_eq_of_lt hmin, Nat.mod_eq_of_lt hdef, Nat.mod_eq_of_lt hmax]
    cases (Keypad_Read c env w).2.testBit 7 <;> cases (Keypad_Read c env w).2.testBit 5 <;>
      simp [h1, h2, h3, Ne.symm h1, Ne.symm h2, Ne.symm h3]
  · intro env' w' buf' e5 e7
    rw [GetNextReport_LY, GetNextReport_LY, e5, e7]

theorem buttons_lt (c : Consts) (hfit : c.FlagsFit) (b0 b1 b3 b4 b6 b8 b9 b11 : Bool) :
    (sel b0 c.SWITCH_L ||| sel b1 c.SWITCH_B ||| sel b3 c.SWITCH_Y ||| sel b4 c.SWITCH_START |||
      sel b6 c.SWITCH_HOME ||| sel b8 c.SWITCH_R ||| sel b9 c.SWITCH_A ||| sel b11 c.SWITCH_X)
      < 2 ^ 16 := by
  obtain ⟨h0, h1, h3, h4, h6, h8, h9, h11⟩ := hfit
  exact Nat.or_lt_two_pow (Nat.or_lt_two_pow (Nat.or_lt_two_pow (Nat.or_lt_two_pow
    (Nat.or_lt_two_pow (Nat.or_lt_two_pow (Nat.or_lt_two_pow (sel_lt _ _ h0) (sel_lt _ _ h1))
    (sel_lt _ _ h3)) (sel_lt _ _ h4)) (sel_lt _ _ h6)) (sel_lt _ _ h8)) (sel_lt _ _ h9))
    (sel_lt _ _ h11)

theorem GetNextReport_Button_fit (c : Consts) (env : Env) (w : World) (buf : Report)
    (hfit : c.FlagsFit) :
    (GetNextReport c env w buf).2.Button =
      sel ((Keypad_Read c env w).2.testBit 0) c.SWITCH_L |||
       sel ((Keypad_Read c env w).2.testBit 1) c.SWITCH_B |||
       sel ((Keypad_Read c env w).2.testBit 3) c.SWITCH_Y |||
       sel ((Keypad_Read c env w).2.testBit 4) c.SWITCH_START |||
       sel ((Keypad_Read c env w).2.testBit 6) c.SWITCH_HOME |||
       sel ((Keypad_Read c env w).2.testBit 8) c.SWITCH_R |||
       sel ((Keypad_Read c env w).2.testBit 9) c.SWITCH_A |||
       sel ((Keypad_Read c env w).2.testBit 11) c.SWITCH_X := by
  rw [GetNextReport_Button]
  exact Nat.mod_eq_of_lt (buttons_lt c hfit _ _ _ _ _ _ _ _)

/-- C3: for every keypad state `raw` obtained by the sample of a call to
`GetNextReport`, the `Button` field is exactly the bitwise OR of the flags
selected by the table bit 0 -> `SWITCH_L`, 1 -> `SWITCH_B`, 3 -> `SWITCH_Y`,
4 -> `SWITCH_START`, 6 -> `SWITCH_HOME`, 8 -> `SWITCH_R`, 9 -> `SWITCH_A`,
11 -> `SWITCH_X`, a flag being taken iff its raw bit is set.  When the eight
flags are one-hot at pairwise distinct positions, the bit of each flag is set
in `Button` iff its own raw bit is set, and no other bit of `Button` is set;
with only bits 0 and 9 set the field is `SWITCH_L | SWITCH_A`.  The flags are
assumed representable in the 16-bit field. -/
theorem C3_button_table (c : Consts) (env : Env) (w : World) (buf : Report) (raw : Nat)
    (hraw : (Keypad_Read c env w).2 = raw) (hfit : c.FlagsFit) :
    ((GetNextReport c env w buf).2.Button =
      ((if raw.testBit 0 then c.SWITCH_L else 0) ||| (if raw.testBit 1 then c.SWITCH_B else 0) |||
       (if raw.testBit 3 then c.SWITCH_Y else 0) ||| (if raw.testBit 4 then c.SWITCH_START else 0) |||
       (if raw.testBit 6 then c.SWITCH_HOME else 0) ||| (if raw.testBit 8 then c.SWITCH_R else 0) |||
       (if raw.testBit 9 then c.SWITCH_A else 0) ||| (if raw.testBit 11 then c.SWITCH_X else 0))) ∧
    (∀ kL kB kY kS kH kR kA kX : Nat,
      c.SWITCH_L = 2 ^ kL → c.SWITCH_B = 2 ^ kB → c.SWITCH_Y = 2 ^ kY →
      c.SWITCH_START = 2 ^ kS → c.SWITCH_HOME = 2 ^ kH → c.SWITCH_R = 2 ^ kR →
      c.SWITCH_A = 2 ^ kA → c.SWITCH_X = 2 ^ kX →
      [kL, kB, kY, kS, kH, kR, kA, kX].Nodup →
      ((GetNextReport c env w buf).2.Button.testBit kL = raw.testBit 0 ∧
       (GetNextReport c env w buf).2.Button.testBit kB = raw.testBit 1 ∧
       (GetNextReport c env w buf).2.Button.testBit kY = raw.testBit 3 ∧
       (GetNextReport c env w buf).2.Button.testBit kS = raw.testBit 4 ∧
       (GetNextReport c env w buf).2.Button.testBit kH = raw.testBit 6 ∧
       (GetNextReport c env w buf).2.Button.testBit kR = raw.testBit 8 ∧
       (GetNextReport c env w buf).2.Button.testBit kA = raw.testBit 9 ∧
       (GetNextReport c env w buf).2.Button.testBit kX = raw.testBit 11) ∧
      (∀ j : Nat, (GetNextReport c env w buf).2.Button.testBit j = true →
        j ∈ [kL, kB, kY, kS, kH, kR, kA, kX])) ∧
    (raw = 2 ^ 0 + 2 ^ 9 → (GetNextReport c env w buf).2.Button = c.SWITCH_L ||| c.SWITCH_A) := by
  subst hraw
  have hB := GetNextReport_Button_fit c env w buf hfit
  refine ⟨?_, ?_, ?_⟩
  · rw [hB]; rfl
  · intro kL kB kY kS kH kR kA kX eL eB eY eS eH eR eA eX hnd
    rw [hB, eL, eB, eY, eS, eH, eR, eA, eX]
    simp only [List.nodup_cons, List.mem_cons, List.mem_singleton, not_or, List.not_mem_nil,
      not_false_eq_true, List.nodup_nil, and_true] at hnd
    obtain ⟨⟨a1, a2, a3, a4, a5, a6, a7⟩, ⟨b2, b3, b4, b5, b6, b7⟩, ⟨c3, c4, c5, c6, c7⟩,
      ⟨d4, d5, d6, d7⟩, ⟨e5, e6, e7⟩, ⟨f6, f7⟩, g7⟩ := hnd
    refine ⟨⟨?_, ?_, ?_, ?_, ?_, ?_, ?_, ?_⟩, ?_⟩
    · simp [Nat.testBit_or, testBit_sel_two_pow, Ne.symm a1, Ne.symm a2, Ne.symm a3, Ne.symm a4,
        Ne.symm a5, Ne.symm a6, Ne.symm a7]
    · simp [Nat.testBit_or, testBit_sel_two_pow, a1, Ne.symm b2, Ne.symm b3, Ne.symm b4,
        Ne.symm b5, Ne.symm b6, Ne.symm b7]
    · simp [Nat.testBit_or, testBit_sel_two_pow, a2, b2, Ne.symm c3, Ne.symm c4, Ne.symm c5,
        Ne.symm c6, Ne.symm c7]
    · simp [Nat.testBit_or, testBit_sel_two_pow, a3, b3, c3, Ne.symm d4, Ne.symm d5, Ne.symm d6,
        Ne.symm d7]
    · simp [Nat.testBit_or, testBit_sel_two_pow, a4, b4, c4, d4, Ne.symm e5, Ne.symm e6,
        Ne.symm e7]
    · simp [Nat.testBit_or, testBit_sel_two_pow, a5, b5, c5, d5, e5, Ne.symm f6, Ne.symm f7]
    · simp [Nat.testBit_or, testBit_sel_two_pow, a6, b6, c6, d6, e6, f6, Ne.symm g7]
    · simp [Nat.testBit_or, testBit_sel_two_pow, a7, b7, c7, d7, e7, f7, g7]
    intro j hj
    simp only [Nat.testBit_or, testBit_sel_two_pow, Bool.or_eq_true, Bool.and_eq_true,
      decide_eq_true_eq] at hj
    rcases hj with (((((((⟨-, h⟩ | ⟨-, h⟩) | ⟨-, h⟩) | ⟨-, h⟩) | ⟨-, h⟩) | ⟨-, h⟩) | ⟨-, h⟩) |
      ⟨-, h⟩) <;> simp [← h]
  · intro h513
    rw [hB, h513]
    have t0 : Nat.testBit (2 ^ 0 + 2 ^ 9) 0 = true := by decide
    have t1 : Nat.testBit (2 ^ 0 + 2 ^ 9) 1 = false := by decide
    have t3 : Nat.testBit (2 ^ 0 + 2 ^ 9) 3 = false := by decide
    have t4 : Nat.testBit (2 ^ 0 + 2 ^ 9) 4 = false := by decide
    have t6 : Nat.testBit (2 ^ 0 + 2 ^ 9) 6 = false := by decide
    have t8 : Nat.testBit (2 ^ 0 + 2 ^ 9) 8 = false := by decide
    have t9 : Nat.testBit (2 ^ 0 + 2 ^ 9) 9 = true := by decide
    have t11 : Nat.testBit (2 ^ 0 + 2 ^ 9) 11 = false := by decide
    rw [t0, t1, t3, t4, t6, t8, t9, t11]
    simp [sel]

/-- C4: whatever the keypad delivers and whatever the buffer held before, the
`HAT` field of the report built by `GetNextReport` equals `HAT_DEFAULT` (the
constant being representable in the 8-bit field). -/
theorem C4_HAT_constant (c : Consts) (env : Env) (w : World) (buf : Report)
    (hfit : c.HAT_DEFAULT < 256) :
    (GetNextReport c env w buf).2.HAT = c.HAT_DEFAULT := by
  rw [GetNextReport_HAT, Nat.mod_eq_of_lt hfit]

/-- C5: bits 12-15 of the keypad state never influence the report: a call
whose sample is `raw` and a call whose sample is `raw & 0x0FFF`, on buffers of
the same struct size, leave identical reports. -/
theorem C5_unassigned_bits_ignored (c : Consts) (env env' : Env) (w w' : World)
    (buf buf' : Report) (raw : Nat)
    (hraw : (Keypad_Read c env w).2 = raw)
    (hmask : (Keypad_Read c env' w').2 = raw &&& 0x0FFF)
    (hlen : buf.rest.length = buf'.rest.length) :
    (GetNextReport c env w buf).2 = (GetNextReport c env' w' buf').2 := by
  apply GetNextReport_congr c env env' w w' buf buf' hlen
  intro i hi
  rw [hraw, hmask, Nat.testBit_and, show (0x0FFF : Nat) = 2 ^ 12 - 1 from rfl,
    Nat.testBit_two_pow_sub_one]
  simp [hi]

theorem emitted_of_append (w w' : World) (l : List Call) (h : w'.trace = w.trace ++ l) :
    emitted w w' = l := by
  simp [emitted, h]

/-- C6: the effect of `GetNextReport` on the world is exactly that of one
`Keypad_Read` (two SPI byte receptions and nothing else), and the report it
leaves is a function of that sample only: two calls that obtain the same
sampled value leave identical reports whatever the two buffers (of the same
struct size) held before, and every byte the code never assigns is zero. -/
theorem C6_single_sample (c : Consts) (env env' : Env) (w w' : World) (buf buf' : Report)
    (hlen : buf.rest.length = buf'.rest.length)
    (hsame : (Keypad_Read c env w).2 = (Keypad_Read c env' w').2) :
    (GetNextReport c env w buf).1 = (Keypad_Read c env w).1 ∧
    emitted w (GetNextReport c env w buf).1 = [Call.SPI_ReceiveByte, Call.SPI_ReceiveByte] ∧
    (GetNextReport c env w buf).2 = (GetNextReport c env' w' buf').2 ∧
    (∀ x ∈ (GetNextReport c env w buf).2.rest, x = 0) := by
  refine ⟨rfl, ?_, ?_, ?_⟩
  · exact emitted_of_append _ _ _ (by rw [GetNextReport_world, Keypad_Read_trace])
  · exact GetNextReport_congr c env env' w w' buf buf' hlen (fun i _ => by rw [hsame])
  · intro x hx
    rw [GetNextReport_rest] at hx
    exact List.eq_of_mem_replicate hx

/-! ### Evaluations at sample inputs -/

theorem C1_LX_opposing_pair_witness :
    (Keypad_Read sampleConsts (sampleEnv 4 false false true) (sampleWorld 4)).2 = 4 ∧
    sampleConsts.LevelsFit ∧ sampleConsts.LevelsDistinct ∧
    (GetNextReport sampleConsts (sampleEnv 4 false false true) (sampleWorld 4)
      dirtyReport).2.LX = sampleConsts.JOYSTICK_MIN :=
  ⟨by decide, by decide, by decide,
   (C1_LX_opposing_pair sampleConsts (sampleEnv 4 false false true) (sampleWorld 4)
      dirtyReport 4 (by decide) (by decide) (by decide)).1.2 ⟨by decide, by decide⟩⟩

theorem C2_LY_opposing_pair_witness :
    (Keypad_Read sampleConsts (sampleEnv 0xA0 false false true) (sampleWorld 4)).2 = 0xA0 ∧
    sampleConsts.LevelsFit ∧ sampleConsts.LevelsDistinct ∧
    (GetNextReport sampleConsts (sampleEnv 0xA0 false false true) (sampleWorld 4)
      dirtyReport).2.LY = sampleConsts.JOYSTICK_DEFAULT :=
  ⟨by decide, by decide, by decide,
   (C2_LY_opposing_pair sampleConsts (sampleEnv 0xA0 false false true) (sampleWorld 4)
      dirtyReport 0xA0 (by decide) (by decide) (by decide)).2.2.1.2 (by decide)⟩

theorem C3_button_table_witness :
    (Keypad_Read sampleConsts (sampleEnv 513 false false true) (sampleWorld 4)).2 = 513 ∧
    sampleConsts.FlagsFit ∧
    (GetNextReport sampleConsts (sampleEnv 513 false false true) (sampleWorld 4)
      dirtyReport).2.Button = sampleConsts.SWITCH_L ||| sampleConsts.SWITCH_A :=
  ⟨by decide, by decide,
   (C3_button_table sampleConsts (sampleEnv 513 false false true) (sampleWorld 4)
      dirtyReport 513 (by decide) (by decide)).2.2 (by decide)⟩

theorem C4_HAT_constant_witness :
    sampleConsts.HAT_DEFAULT < 256 ∧
    (GetNextReport sampleConsts (sampleEnv 0xFFFF false false true) (sampleWorld 4)
      dirtyReport).2.HAT = sampleConsts.HAT_DEFAULT :=
  ⟨by decide,
   C4_HAT_constant sampleConsts (sampleEnv 0xFFFF false false true) (sampleWorld 4)
      dirtyReport (by decide)⟩

theorem C5_unassigned_bits_ignored_witness :
    (Keypad_Read sampleConsts (sampleEnv 0xF201 false false true) (sampleWorld 4)).2 = 0xF201 ∧
    (Keypad_Read sampleConsts (sampleEnv 0x0201 false false true) (sampleWorld 4)).2
      = 0xF201 &&& 0x0FFF ∧
    dirtyReport.rest.length = (memset_zero dirtyReport).rest.length ∧
    (GetNextReport sampleConsts (sampleEnv 0xF201 false false true) (sampleWorld 4)
      dirtyReport).2 =
    (GetNextReport sampleConsts (sampleEnv 0x0201 false false true) (sampleWorld 4)
      (memset_zero dirtyReport)).2 :=
  ⟨by decide, by decide, by decide,
   C5_unassigned_bits_ignored sampleConsts (sampleEnv 0xF201 false false true)
      (sampleEnv 0x0201 false false true) (sampleWorld 4) (sampleWorld 4) dirtyReport
      (memset_zero dirtyReport) 0xF201 (by decide) (by decide) (by decide)⟩

theorem C6_single_sample_witness :
    dirtyReport.rest.length = (memset_zero dirtyReport).rest.length ∧
    (Keypad_Read sampleConsts (sampleEnv 0x0201 false false true) (sampleWorld 4)).2 =
      (Keypad_Read sampleConsts (sampleEnv 0x0201 true true true) (sampleWorld 0)).2 ∧
    (GetNextReport sampleConsts (sampleEnv 0x0201 false false true) (sampleWorld 4)
      dirtyReport).2 =
    (GetNextReport sampleConsts (sampleEnv 0x0201 true true true) (sampleWorld 0)
      (memset_zero dirtyReport)).2 :=
  ⟨by decide, by decide,
   (C6_single_sample sampleConsts (sampleEnv 0x0201 false false true)
      (sampleEnv 0x0201 true true true) (sampleWorld 4) (sampleWorld 0) dirtyReport
      (memset_zero dirtyReport) (by decide) (by decide)).2.2.1⟩

/-! ## The endpoint exchange task -/

theorem HID_Task_OUT_trace (c : Consts) (env : Env) (w : World) :
    (HID_Task_OUT c env w).trace = w.trace ++
      (Call.Endpoint_SelectEndpoint c.JOYSTICK_OUT_EPADDR :: Call.Endpoint_IsOUTReceived ::
        (if env.Endpoint_IsOUTReceived (atOUTReceived c w) = true then
          Call.Endpoint_IsReadWriteAllowed ::
            ((if env.Endpoint_IsReadWriteAllowed (atReadWriteAllowed c w) = true then
                [Call.Endpoint_Read_Stream_LE c.sizeof_USB_JoystickReport_Output_t]
              else []) ++ [Call.Endpoint_ClearOUT])
        else [])) := by
  simp only [HID_Task_OUT, Endpoint_IsOUTReceived, Endpoint_IsReadWriteAllowed,
    Endpoint_Read_Stream_LE, Endpoint_ClearOUT, Endpoint_SelectEndpoint, atOUTReceived,
    atReadWriteAllowed]
  split_ifs <;> simp [World.log]

theorem HID_Task_IN_trace (c : Consts) (env : Env) (w : World) (buf : Report) :
    (HID_Task_IN c env w buf).trace = w.trace ++
      (Call.Endpoint_SelectEndpoint c.JOYSTICK_IN_EPADDR :: Call.Endpoint_IsINReady ::
        (if env.Endpoint_IsINReady (Endpoint_SelectEndpoint w c.JOYSTICK_IN_EPADDR) = true then
          [Call.SPI_ReceiveByte, Call.SPI_ReceiveByte,
           Call.Endpoint_Write_Stream_LE
             (GetNextReport c env
               ((Endpoint_SelectEndpoint w c.JOYSTICK_IN_EPADDR).log Call.Endpoint_IsINReady)
               buf).2
             c.sizeof_USB_JoystickReport_Input_t,
           Call.Endpoint_ClearIN]
        else [])) := by
  simp only [HID_Task_IN, Endpoint_IsINReady, Endpoint_Write_Stream_LE, Endpoint_ClearIN]
  split_ifs
  · simp [World.log, GetNextReport_world, Keypad_Read_trace, Endpoint_SelectEndpoint]
  · simp [World.log, Endpoint_SelectEndpoint]

theorem HID_Task_configured (c : Consts) (env : Env) (w : World) (buf : Report)
    (hcfg : w.USB_DeviceState = c.DEVICE_STATE_Configured) :
    HID_Task c env w buf = HID_Task_IN c env (HID_Task_OUT c env w) buf := by
  simp [HID_Task, hcfg]

theorem emitted_self (w : World) : emitted w w = [] := by
  simp [emitted]

theorem HID_Task_OUT_emitted (c : Consts) (env : Env) (w : World) :
    emitted w (HID_Task_OUT c env w) =
      Call.Endpoint_SelectEndpoint c.JOYSTICK_OUT_EPADDR :: Call.Endpoint_IsOUTReceived ::
        (if env.Endpoint_IsOUTReceived (atOUTReceived c w) = true then
          Call.Endpoint_IsReadWriteAllowed ::
            ((if env.Endpoint_IsReadWriteAllowed (atReadWriteAllowed c w) = true then
                [Call.Endpoint_Read_Stream_LE c.sizeof_USB_JoystickReport_Output_t]
              else []) ++ [Call.Endpoint_ClearOUT])
        else []) :=
  emitted_of_append _ _ _ (HID_Task_OUT_trace c env w)

theorem HID_Task_IN_emitted (c : Consts) (env : Env) (w : World) (buf : Report)
    (hcfg : w.USB_DeviceState = c.DEVICE_STATE_Configured) :
    emitted (HID_Task_OUT c env w) (HID_Task c env w buf) =
      Call.Endpoint_SelectEndpoint c.JOYSTICK_IN_EPADDR :: Call.Endpoint_IsINReady ::
        (if env.Endpoint_IsINReady (atINReady c env w) = true then
          [Call.SPI_ReceiveByte, Call.SPI_ReceiveByte,
           Call.Endpoint_Write_Stream_LE (GetNextReport c env (atSample c env w) buf).2
             c.sizeof_USB_JoystickReport_Input_t,
           Call.Endpoint_ClearIN]
        else []) := by
  rw [HID_Task_configured c env w buf hcfg]
  exact emitted_of_append _ _ _ (HID_Task_IN_trace c env (HID_Task_OUT c env w) buf)

theorem HID_Task_emitted (c : Consts) (env : Env) (w : World) (buf : Report)
    (hcfg : w.USB_DeviceState = c.DEVICE_STATE_Configured) :
    emitted w (HID_Task c env w buf) =
      emitted w (HID_Task_OUT c env w) ++
        emitted (HID_Task_OUT c env w) (HID_Task c env w buf) := by
  rw [HID_Task_IN_emitted c env w buf hcfg, HID_Task_OUT_emitted]
  apply emitted_of_append
  rw [HID_Task_configured c env w buf hcfg, HID_Task_IN_trace, HID_Task_OUT_trace]
  simp [atINReady, atSample]

/-- C7: when `USB_DeviceState` is not `DEVICE_STATE_Configured`, `HID_Task`
returns at once: the world is unchanged and no collaborator call is made. -/
theorem C7_unconfigured_no_operation (c : Consts) (env : Env) (w : World) (buf : Report)
    (hstate : w.USB_DeviceState ≠ c.DEVICE_STATE_Configured) :
    HID_Task c env w buf = w ∧ emitted w (HID_Task c env w buf) = [] := by
  have h : HID_Task c env w buf = w := by simp [HID_Task, hstate]
  rw [h]
  exact ⟨rfl, emitted_self w⟩

/-- C8: with the device configured, if `Endpoint_IsINReady` answers false the
call ends with the selection of the IN endpoint and the readiness query, and
contains no SPI reception, no stream write and no `ClearIN`; if it answers
true, the selection and the query are followed by exactly: the two SPI
receptions of one `Keypad_Read`, one stream write of `sizeof` (input report)
bytes whose payload is the report any call of `GetNextReport` builds from that
sampled value, and one `ClearIN`; the OUT half before them contains none of
these. -/
theorem C8_IN_half (c : Consts) (env : Env) (w : World) (buf : Report)
    (hcfg : w.USB_DeviceState = c.DEVICE_STATE_Configured) :
    (env.Endpoint_IsINReady (atINReady c env w) = false →
      emitted w (HID_Task c env w buf) =
        emitted w (HID_Task_OUT c env w) ++
          [Call.Endpoint_SelectEndpoint c.JOYSTICK_IN_EPADDR, Call.Endpoint_IsINReady] ∧
      (∀ e ∈ emitted w (HID_Task c env w buf),
        e ≠ Call.SPI_ReceiveByte ∧ (∀ b n, e ≠ Call.Endpoint_Write_Stream_LE b n) ∧
        e ≠ Call.Endpoint_ClearIN)) ∧
    (env.Endpoint_IsINReady (atINReady c env w) = true →
      emitted w (HID_Task c env w buf) =
        emitted w (HID_Task_OUT c env w) ++
          [Call.Endpoint_SelectEndpoint c.JOYSTICK_IN_EPADDR, Call.Endpoint_IsINReady,
           Call.SPI_ReceiveByte, Call.SPI_ReceiveByte,
           Call.Endpoint_Write_Stream_LE (GetNextReport c env (atSample c env w) buf).2
             c.sizeof_USB_JoystickReport_Input_t,
           Call.Endpoint_ClearIN] ∧
      (∀ e ∈ emitted w (HID_Task_OUT c env w),
        e ≠ Call.SPI_ReceiveByte ∧ (∀ b n, e ≠ Call.Endpoint_Write_Stream_LE b n) ∧
        e ≠ Call.Endpoint_ClearIN) ∧
      emitted (atSample c env w) (Keypad_Read c env (atSample c env w)).1 =
        [Call.SPI_ReceiveByte, Call.SPI_ReceiveByte] ∧
      (∀ (env' : Env) (w' : World) (buf' : Report),
        buf'.rest.length = buf.rest.length →
        (Keypad_Read c env' w').2 = (Keypad_Read c env (atSample c env w)).2 →
        (GetNextReport c env' w' buf').2 = (GetNextReport c env (atSample c env w) buf).2)) := by
  have hout : ∀ e ∈ emitted w (HID_Task_OUT c env w),
      e ≠ Call.SPI_ReceiveByte ∧ (∀ b n, e ≠ Call.Endpoint_Write_Stream_LE b n) ∧
      e ≠ Call.Endpoint_ClearIN := by
    rw [HID_Task_OUT_emitted]
    split_ifs <;> simp
  constructor
  · intro hq
    have hall : emitted w (HID_Task c env w buf) =
        emitted w (HID_Task_OUT c env w) ++
          [Call.Endpoint_SelectEndpoint c.JOYSTICK_IN_EPADDR, Call.Endpoint_IsINReady] := by
      rw [HID_Task_emitted c env w buf hcfg, HID_Task_IN_emitted c env w buf hcfg, hq]
      simp
    refine ⟨hall, ?_⟩
    intro e he
    rw [hall, List.mem_append] at he
    rcases he with he | he
    · exact hout e he
    · simp at he
      rcases he with h | h <;> subst h <;> simp
  · intro hq
    refine ⟨?_, hout, ?_, ?_⟩
    · rw [HID_Task_emitted c env w buf hcfg, HID_Task_IN_emitted c env w buf hcfg, hq]
      simp
    · exact emitted_of_append _ _ _ (Keypad_Read_trace c env _)
    · intro env' w' buf' hlen hs
      exact GetNextReport_congr c env' env w' (atSample c env w) buf' buf hlen
        (fun i _ => by rw [hs])

/-- C9: with the device configured and an OUT packet pending, the call starts
with: select OUT, receipt query, read/write query, then one stream read of
`sizeof` (output report) bytes iff read/write is allowed, then `ClearOUT`; the
IN half that follows contains neither a `ClearOUT` nor a stream read.  Hence
`ClearOUT` occurs exactly once in the call, and a stream read of `n` bytes
occurs once if read/write is allowed and `n` is that size, and never
otherwise. -/
theorem C9_OUT_acknowledged (c : Consts) (env : Env) (w : World) (buf : Report)
    (hcfg : w.USB_DeviceState = c.DEVICE_STATE_Configured)
    (hrecv : env.Endpoint_IsOUTReceived (atOUTReceived c w) = true) :
    emitted w (HID_Task c env w buf) =
      [Call.Endpoint_SelectEndpoint c.JOYSTICK_OUT_EPADDR, Call.Endpoint_IsOUTReceived,
       Call.Endpoint_IsReadWriteAllowed] ++
      (if env.Endpoint_IsReadWriteAllowed (atReadWriteAllowed c w) = true then
        [Call.Endpoint_Read_Stream_LE c.sizeof_USB_JoystickReport_Output_t] else []) ++
      [Call.Endpoint_ClearOUT] ++
      emitted (HID_Task_OUT c env w) (HID_Task c env w buf) ∧
    (∀ e ∈ emitted (HID_Task_OUT c env w) (HID_Task c env w buf),
      e ≠ Call.Endpoint_ClearOUT ∧ ∀ n, e ≠ Call.Endpoint_Read_Stream_LE n) ∧
    (emitted w (HID_Task c env w buf)).count Call.Endpoint_ClearOUT = 1 ∧
    (∀ n, (emitted w (HID_Task c env w buf)).count (Call.Endpoint_Read_Stream_LE n) =
      if env.Endpoint_IsReadWriteAllowed (atReadWriteAllowed c w) = true ∧
          n = c.sizeof_USB_JoystickReport_Output_t then 1 else 0) := by
  have hall := HID_Task_emitted c env w buf hcfg
  have hin := HID_Task_IN_emitted c env w buf hcfg
  rw [HID_Task_OUT_emitted, if_pos hrecv] at hall
  refine ⟨?_, ?_, ?_, ?_⟩
  · rw [hall]
    simp
  · rw [hin]
    split_ifs <;> simp
  · rw [hall, hin]
    split_ifs <;> simp [List.count_cons]
  · intro n
    rw [hall, hin]
    split_ifs <;> simp_all [List.count_cons]

/-- C10: with the device configured and no OUT packet pending, the OUT half
consists of the selection of the OUT endpoint and the receipt query only, and
the whole call contains no read/write-allowed query, no stream read and no
`ClearOUT`. -/
theorem C10_no_OUT_packet (c : Consts) (env : Env) (w : World) (buf : Report)
    (hcfg : w.USB_DeviceState = c.DEVICE_STATE_Configured)
    (hrecv : env.Endpoint_IsOUTReceived (atOUTReceived c w) = false) :
    emitted w (HID_Task_OUT c env w) =
      [Call.Endpoint_SelectEndpoint c.JOYSTICK_OUT_EPADDR, Call.Endpoint_IsOUTReceived] ∧
    emitted w (HID_Task c env w buf) =
      [Call.Endpoint_SelectEndpoint c.JOYSTICK_OUT_EPADDR, Call.Endpoint_IsOUTReceived] ++
        emitted (HID_Task_OUT c env w) (HID_Task c env w buf) ∧
    (∀ e ∈ emitted w (HID_Task c env w buf),
      e ≠ Call.Endpoint_IsReadWriteAllowed ∧ (∀ n, e ≠ Call.Endpoint_Read_Stream_LE n) ∧
      e ≠ Call.Endpoint_ClearOUT) := by
  have hall := HID_Task_emitted c env w buf hcfg
  have hin := HID_Task_IN_emitted c env w buf hcfg
  have hout : emitted w (HID_Task_OUT c env w) =
      [Call.Endpoint_SelectEndpoint c.JOYSTICK_OUT_EPADDR, Call.Endpoint_IsOUTReceived] := by
    rw [HID_Task_OUT_emitted, if_neg (by simp [hrecv])]
  rw [hout] at hall
  refine ⟨hout, hall, ?_⟩
  rw [hall, hin]
  split_ifs <;> simp

theorem C7_unconfigured_no_operation_witness :
    (sampleWorld 0).USB_DeviceState ≠ sampleConsts.DEVICE_STATE_Configured ∧
    HID_Task sampleConsts (sampleEnv 0x0201 true true true) (sampleWorld 0) dirtyReport
      = sampleWorld 0 :=
  ⟨by decide,
   (C7_unconfigured_no_operation sampleConsts (sampleEnv 0x0201 true true true) (sampleWorld 0)
      dirtyReport (by decide)).1⟩

theorem C8_IN_half_witness :
    (sampleWorld 4).USB_DeviceState = sampleConsts.DEVICE_STATE_Configured ∧
    (sampleEnv 0x0201 false false true).Endpoint_IsINReady
      (atINReady sampleConsts (sampleEnv 0x0201 false false true) (sampleWorld 4)) = true ∧
    emitted (sampleWorld 4)
      (HID_Task sampleConsts (sampleEnv 0x0201 false false true) (sampleWorld 4) dirtyReport) =
      [Call.Endpoint_SelectEndpoint 2, Call.Endpoint_IsOUTReceived,
       Call.Endpoint_SelectEndpoint 129, Call.Endpoint_IsINReady,
       Call.SPI_ReceiveByte, Call.SPI_ReceiveByte,
       Call.Endpoint_Write_Stream_LE
         { LX := 128, LY := 128, HAT := 8, Button := 0x14, rest := [0, 0, 0] } 8,
       Call.Endpoint_ClearIN] :=
  ⟨by decide, by decide,
   ((C8_IN_half sampleConsts (sampleEnv 0x0201 false false true) (sampleWorld 4) dirtyReport
      (by decide)).2 (by decide)).1.trans (by decide)⟩

theorem C9_OUT_acknowledged_witness :
    (sampleWorld 4).USB_DeviceState = sampleConsts.DEVICE_STATE_Configured ∧
    (sampleEnv 0 true false false).Endpoint_IsOUTReceived
      (atOUTReceived sampleConsts (sampleWorld 4)) = true ∧
    (emitted (sampleWorld 4)
      (HID_Task sampleConsts (sampleEnv 0 true false false) (sampleWorld 4) dirtyReport)).count
        Call.Endpoint_ClearOUT = 1 :=
  ⟨by decide, by decide,
   (C9_OUT_acknowledged sampleConsts (sampleEnv 0 true false false) (sampleWorld 4) dirtyReport
      (by decide) (by decide)).2.2.1⟩

theorem C10_no_OUT_packet_witness :
    (sampleWorld 4).USB_DeviceState = sampleConsts.DEVICE_STATE_Configured ∧
    (sampleEnv 0 false true true).Endpoint_IsOUTReceived
      (atOUTReceived sampleConsts (sampleWorld 4)) = false ∧
    emitted (sampleWorld 4) (HID_Task_OUT sampleConsts (sampleEnv 0 false true true)
      (sampleWorld 4)) =
      [Call.Endpoint_SelectEndpoint sampleConsts.JOYSTICK_OUT_EPADDR,
       Call.Endpoint_IsOUTReceived] :=
  ⟨by decide, by decide,
   (C10_no_OUT_packet sampleConsts (sampleEnv 0 false true true) (sampleWorld 4) dirtyReport
      (by decide) (by decide)).1⟩


/-! ## The control request handler -/

theorem GetNextReport_trace (c : Consts) (env : Env) (w : World) (buf : Report) :
    (GetNextReport c env w buf).1.trace =
      w.trace ++ [Call.SPI_ReceiveByte, Call.SPI_ReceiveByte] := by
  rw [GetNextReport_world, Keypad_Read_trace]

/-- C11: for a `GetReport` request of type device-to-host | class | interface
and whatever the keypad delivers, `EVENT_USB_Device_ControlRequest` makes
exactly these calls, in this order: the two SPI receptions of one
`Keypad_Read`, `Endpoint_ClearSETUP`, one control-stream write of `sizeof`
(input report) bytes whose payload is the report any call of `GetNextReport`
builds from that sampled value, `Endpoint_ClearOUT`.  There is no `ClearIN`. -/
theorem C11_GetReport_sequence (c : Consts) (env : Env) (w : World) (buf : Report)
    (hreq : w.USB_ControlRequest.bRequest = c.HID_REQ_GetReport)
    (htype : w.USB_ControlRequest.bmRequestType =
      (c.REQDIR_DEVICETOHOST ||| c.REQTYPE_CLASS ||| c.REQREC_INTERFACE)) :
    emitted w (EVENT_USB_Device_ControlRequest c env w buf) =
      [Call.SPI_ReceiveByte, Call.SPI_ReceiveByte, Call.Endpoint_ClearSETUP,
       Call.Endpoint_Write_Control_Stream_LE (GetNextReport c env w buf).2
         c.sizeof_USB_JoystickReport_Input_t,
       Call.Endpoint_ClearOUT] ∧
    emitted w (Keypad_Read c env w).1 = [Call.SPI_ReceiveByte, Call.SPI_ReceiveByte] ∧
    (∀ (env' : Env) (w' : World) (buf' : Report),
      buf'.rest.length = buf.rest.length →
      (Keypad_Read c env' w').2 = (Keypad_Read c env w).2 →
      (GetNextReport c env' w' buf').2 = (GetNextReport c env w buf).2) ∧
    Call.Endpoint_ClearIN ∉ emitted w (EVENT_USB_Device_ControlRequest c env w buf) := by
  have htr : emitted w (EVENT_USB_Device_ControlRequest c env w buf) =
      [Call.SPI_ReceiveByte, Call.SPI_ReceiveByte, Call.Endpoint_ClearSETUP,
       Call.Endpoint_Write_Control_Stream_LE (GetNextReport c env w buf).2
         c.sizeof_USB_JoystickReport_Input_t,
       Call.Endpoint_ClearOUT] := by
    apply emitted_of_append
    simp [EVENT_USB_Device_ControlRequest, hreq, htype, Endpoint_ClearSETUP,
      Endpoint_Write_Control_Stream_LE, Endpoint_ClearOUT, World.log, GetNextReport_trace]
  refine ⟨htr, ?_, ?_, ?_⟩
  · exact emitted_of_append _ _ _ (Keypad_Read_trace c env w)
  · intro env' w' buf' hlen hs
    exact GetNextReport_congr c env' env w' w buf' buf hlen (fun i _ => by rw [hs])
  · rw [htr]
    simp

/-- C12: for a `SetReport` request of type host-to-device | class | interface,
`EVENT_USB_Device_ControlRequest` makes exactly these calls, in this order:
`Endpoint_ClearSETUP`, one control-stream read of `sizeof` (output report)
bytes, `Endpoint_ClearIN`.  The world it leaves is the entry world with these
three calls appended, whatever bytes the read delivers (for every
environment), and there is no SPI reception.  The two request codes are the
labels of one `switch` and therefore distinct. -/
theorem C12_SetReport_sequence (c : Consts) (env : Env) (w : World) (buf : Report)
    (hcodes : c.HID_REQ_GetReport ≠ c.HID_REQ_SetReport)
    (hreq : w.USB_ControlRequest.bRequest = c.HID_REQ_SetReport)
    (htype : w.USB_ControlRequest.bmRequestType =
      (c.REQDIR_HOSTTODEVICE ||| c.REQTYPE_CLASS ||| c.REQREC_INTERFACE)) :
    emitted w (EVENT_USB_Device_ControlRequest c env w buf) =
      [Call.Endpoint_ClearSETUP,
       Call.Endpoint_Read_Control_Stream_LE c.sizeof_USB_JoystickReport_Output_t,
       Call.Endpoint_ClearIN] ∧
    EVENT_USB_Device_ControlRequest c env w buf =
      { w with trace := w.trace ++
          [Call.Endpoint_ClearSETUP,
           Call.Endpoint_Read_Control_Stream_LE c.sizeof_USB_JoystickReport_Output_t,
           Call.Endpoint_ClearIN] } ∧
    (∀ (env' : Env) (buf' : Report),
      EVENT_USB_Device_ControlRequest c env' w buf' =
        EVENT_USB_Device_ControlRequest c env w buf) ∧
    Call.SPI_ReceiveByte ∉ emitted w (EVENT_USB_Device_ControlRequest c env w buf) := by
  have hne : ¬ c.HID_REQ_SetReport = c.HID_REQ_GetReport := fun h => hcodes h.symm
  have hw : ∀ (env' : Env) (buf' : Report), EVENT_USB_Device_ControlRequest c env' w buf' =
      { w with trace := w.trace ++
          [Call.Endpoint_ClearSETUP,
           Call.Endpoint_Read_Control_Stream_LE c.sizeof_USB_JoystickReport_Output_t,
           Call.Endpoint_ClearIN] } := by
    intro env' buf'
    simp [EVENT_USB_Device_ControlRequest, hreq, htype, hne, Endpoint_ClearSETUP,
      Endpoint_Read_Control_Stream_LE, Endpoint_ClearIN, World.log]
  have htr : emitted w (EVENT_USB_Device_ControlRequest c env w buf) =
      [Call.Endpoint_ClearSETUP,
       Call.Endpoint_Read_Control_Stream_LE c.sizeof_USB_JoystickReport_Output_t,
       Call.Endpoint_ClearIN] := by
    apply emitted_of_append
    rw [hw env buf]
  refine ⟨htr, hw env buf, ?_, ?_⟩
  · intro env' buf'
    rw [hw env' buf', hw env buf]
  · rw [htr]
    simp

/-- C13: for every control request that is neither `GetReport` with type
device-to-host | class | interface nor `SetReport` with type
host-to-device | class | interface, `EVENT_USB_Device_ControlRequest` leaves
the world unchanged and makes no collaborator call. -/
theorem C13_other_requests_ignored (c : Consts) (env : Env) (w : World) (buf : Report)
    (hget : ¬ (w.USB_ControlRequest.bRequest = c.HID_REQ_GetReport ∧
      w.USB_ControlRequest.bmRequestType =
        (c.REQDIR_DEVICETOHOST ||| c.REQTYPE_CLASS ||| c.REQREC_INTERFACE)))
    (hset : ¬ (w.USB_ControlRequest.bRequest = c.HID_REQ_SetReport ∧
      w.USB_ControlRequest.bmRequestType =
        (c.REQDIR_HOSTTODEVICE ||| c.REQTYPE_CLASS ||| c.REQREC_INTERFACE))) :
    EVENT_USB_Device_ControlRequest c env w buf = w ∧
    emitted w (EVENT_USB_Device_ControlRequest c env w buf) = [] := by
  have h : EVENT_USB_Device_ControlRequest c env w buf = w := by
    unfold EVENT_USB_Device_ControlRequest
    split_ifs with h1 h2 h3 h4
    · exact absurd ⟨h1, h2⟩ hget
    · rfl
    · exact absurd ⟨h3, h4⟩ hset
    · rfl
    · rfl
  rw [h]
  exact ⟨rfl, emitted_self w⟩

theorem C11_GetReport_sequence_witness :
    (sampleRequestWorld 161 1).USB_ControlRequest.bRequest = sampleConsts.HID_REQ_GetReport ∧
    (sampleRequestWorld 161 1).USB_ControlRequest.bmRequestType =
      (sampleConsts.REQDIR_DEVICETOHOST ||| sampleConsts.REQTYPE_CLASS |||
        sampleConsts.REQREC_INTERFACE) ∧
    emitted (sampleRequestWorld 161 1)
      (EVENT_USB_Device_ControlRequest sampleConsts (sampleEnv 0x0201 false false false)
        (sampleRequestWorld 161 1) dirtyReport) =
      [Call.SPI_ReceiveByte, Call.SPI_ReceiveByte, Call.Endpoint_ClearSETUP,
       Call.Endpoint_Write_Control_Stream_LE
         { LX := 128, LY := 128, HAT := 8, Button := 0x14, rest := [0, 0, 0] } 8,
       Call.Endpoint_ClearOUT] :=
  ⟨by decide, by decide,
   (C11_GetReport_sequence sampleConsts (sampleEnv 0x0201 false false false)
      (sampleRequestWorld 161 1) dirtyReport (by decide) (by decide)).1.trans (by decide)⟩

theorem C12_SetReport_sequence_witness :
    sampleConsts.HID_REQ_GetReport ≠ sampleConsts.HID_REQ_SetReport ∧
    (sampleRequestWorld 33 9).USB_ControlRequest.bRequest = sampleConsts.HID_REQ_SetReport ∧
    (sampleRequestWorld 33 9).USB_ControlRequest.bmRequestType =
      (sampleConsts.REQDIR_HOSTTODEVICE ||| sampleConsts.REQTYPE_CLASS |||
        sampleConsts.REQREC_INTERFACE) ∧
    emitted (sampleRequestWorld 33 9)
      (EVENT_USB_Device_ControlRequest sampleConsts (sampleEnv 0x0201 false false false)
        (sampleRequestWorld 33 9) dirtyReport) =
      [Call.Endpoint_ClearSETUP, Call.Endpoint_Read_Control_Stream_LE 8,
       Call.Endpoint_ClearIN] :=
  ⟨by decide, by decide, by decide,
   (C12_SetReport_sequence sampleConsts (sampleEnv 0x0201 false false false)
      (sampleRequestWorld 33 9) dirtyReport (by decide) (by decide) (by decide)).1⟩

theorem C13_other_requests_ignored_witness :
    ¬ ((sampleRequestWorld 33 1).USB_ControlRequest.bRequest = sampleConsts.HID_REQ_GetReport ∧
      (sampleRequestWorld 33 1).USB_ControlRequest.bmRequestType =
        (sampleConsts.REQDIR_DEVICETOHOST ||| sampleConsts.REQTYPE_CLASS |||
          sampleConsts.REQREC_INTERFACE)) ∧
    ¬ ((sampleRequestWorld 33 1).USB_ControlRequest.bRequest = sampleConsts.HID_REQ_SetReport ∧
      (sampleRequestWorld 33 1).USB_ControlRequest.bmRequestType =
        (sampleConsts.REQDIR_HOSTTODEVICE ||| sampleConsts.REQTYPE_CLASS |||
          sampleConsts.REQREC_INTERFACE)) ∧
    EVENT_USB_Device_ControlRequest sampleConsts (sampleEnv 0x0201 false false false)
      (sampleRequestWorld 33 1) dirtyReport = sampleRequestWorld 33 1 :=
  ⟨by decide, by decide,
   (C13_other_requests_ignored sampleConsts (sampleEnv 0x0201 false false false)
      (sampleRequestWorld 33 1) dirtyReport (by decide) (by decide)).1⟩

/-! ## Endpoint configuration and the button table -/

/-- C14 (as the code has it): `EVENT_USB_Device_ConfigurationChanged` makes
exactly two calls, both `Endpoint_ConfigureEndpoint` with type
`EP_TYPE_INTERRUPT`, size `JOYSTICK_EPSIZE` and final parameter 1, the first
for `JOYSTICK_OUT_EPADDR` and the second for `JOYSTICK_IN_EPADDR`, in every
environment, hence whatever result the first call returns. -/
theorem C14_two_interrupt_endpoints (c : Consts) (env : Env) (w : World) :
    emitted w (EVENT_USB_Device_ConfigurationChanged c env w).1 =
      [Call.Endpoint_ConfigureEndpoint c.JOYSTICK_OUT_EPADDR c.EP_TYPE_INTERRUPT
         c.JOYSTICK_EPSIZE 1,
       Call.Endpoint_ConfigureEndpoint c.JOYSTICK_IN_EPADDR c.EP_TYPE_INTERRUPT
         c.JOYSTICK_EPSIZE 1] := by
  apply emitted_of_append
  simp [EVENT_USB_Device_ConfigurationChanged, Endpoint_ConfigureEndpoint, World.log]

/-- C14, the claim as stated fails: with `JOYSTICK_EPSIZE = 64` and both report
sizes 8, the two configuration calls carry size 64, and no configuration call
carries the size of the input report or of the output report. -/
theorem C14_size_is_not_sizeof :
    emitted (sampleWorld 4)
      (EVENT_USB_Device_ConfigurationChanged sampleConsts (sampleEnv 0 false false false)
        (sampleWorld 4)).1 =
      [Call.Endpoint_ConfigureEndpoint 2 3 64 1, Call.Endpoint_ConfigureEndpoint 129 3 64 1] ∧
    sampleConsts.sizeof_USB_JoystickReport_Input_t = 8 ∧
    sampleConsts.sizeof_USB_JoystickReport_Output_t = 8 ∧
    ¬ (Call.Endpoint_ConfigureEndpoint sampleConsts.JOYSTICK_OUT_EPADDR
          sampleConsts.EP_TYPE_INTERRUPT sampleConsts.sizeof_USB_JoystickReport_Output_t 1 ∈
        emitted (sampleWorld 4)
          (EVENT_USB_Device_ConfigurationChanged sampleConsts (sampleEnv 0 false false false)
            (sampleWorld 4)).1) ∧
    ¬ (Call.Endpoint_ConfigureEndpoint sampleConsts.JOYSTICK_IN_EPADDR
          sampleConsts.EP_TYPE_INTERRUPT sampleConsts.sizeof_USB_JoystickReport_Input_t 1 ∈
        emitted (sampleWorld 4)
          (EVENT_USB_Device_ConfigurationChanged sampleConsts (sampleEnv 0 false false false)
            (sampleWorld 4)).1) := by
  decide

/-- C15: `ButtonMap` has 16 entries, entry `i` is `2 ^ i` (so its only set bit
is bit `i`, and it fits in 16 bits), the entries are pairwise distinct and
their bitwise OR is `0xFFFF`. -/
theorem C15_ButtonMap_one_hot :
    ButtonMap.length = 16 ∧
    ButtonMap = (List.range 16).map (fun i => 2 ^ i) ∧
    (∀ i : Fin 16, ButtonMap[i.val]? = some (2 ^ i.val) ∧ 2 ^ i.val < 65536 ∧
      ∀ j : Nat, (2 ^ i.val).testBit j = decide (i.val = j)) ∧
    ButtonMap.Nodup ∧
    ButtonMap.foldl (fun acc x => acc ||| x) 0 = 0xFFFF := by
  refine ⟨by decide, by decide, ?_, by decide, by decide⟩
  intro i
  refine ⟨?_, ?_, fun j => Nat.testBit_two_pow⟩
  · revert i
    decide
  · revert i
    decide

/-- C16: each of `LX` and `LY` of the report built by `GetNextReport` is one of
`JOYSTICK_MIN`, `JOYSTICK_DEFAULT`, `JOYSTICK_MAX` (the constants being
representable in the 8-bit fields). -/
theorem C16_axis_three_levels (c : Consts) (env : Env) (w : World) (buf : Report)
    (hfit : c.LevelsFit) :
    ((GetNextReport c env w buf).2.LX = c.JOYSTICK_MIN ∨
     (GetNextReport c env w buf).2.LX = c.JOYSTICK_DEFAULT ∨
     (GetNextReport c env w buf).2.LX = c.JOYSTICK_MAX) ∧
    ((GetNextReport c env w buf).2.LY = c.JOYSTICK_MIN ∨
     (GetNextReport c env w buf).2.LY = c.JOYSTICK_DEFAULT ∨
     (GetNextReport c env w buf).2.LY = c.JOYSTICK_MAX) := by
  obtain ⟨hmin, hdef, hmax, -⟩ := hfit
  rw [GetNextReport_LX, GetNextReport_LY, Nat.mod_eq_of_lt hmin, Nat.mod_eq_of_lt hdef,
    Nat.mod_eq_of_lt hmax]
  constructor
  · split_ifs <;> simp
  · split_ifs <;> simp

theorem C16_axis_three_levels_witness :
    sampleConsts.LevelsFit ∧
    ((GetNextReport sampleConsts (sampleEnv 0x0484 false false false) (sampleWorld 4)
        dirtyReport).2.LX = sampleConsts.JOYSTICK_MIN ∨
     (GetNextReport sampleConsts (sampleEnv 0x0484 false false false) (sampleWorld 4)
        dirtyReport).2.LX = sampleConsts.JOYSTICK_DEFAULT ∨
     (GetNextReport sampleConsts (sampleEnv 0x0484 false false false) (sampleWorld 4)
        dirtyReport).2.LX = sampleConsts.JOYSTICK_MAX) ∧
    ((GetNextReport sampleConsts (sampleEnv 0x0484 false false false) (sampleWorld 4)
        dirtyReport).2.LY = sampleConsts.JOYSTICK_MIN ∨
     (GetNextReport sampleConsts (sampleEnv 0x0484 false false false) (sampleWorld 4)
        dirtyReport).2.LY = sampleConsts.JOYSTICK_DEFAULT ∨
     (GetNextReport sampleConsts (sampleEnv 0x0484 false false false) (sampleWorld 4)
        dirtyReport).2.LY = sampleConsts.JOYSTICK_MAX) :=
  ⟨by decide,
   C16_axis_three_levels sampleConsts (sampleEnv 0x0484 false false false) (sampleWorld 4)
      dirtyReport (by decide)⟩

/-! ## Order and independence of the two halves -/

/-- C17: with the device configured, the calls of `HID_Task` are: the
selection of the OUT endpoint, then only OUT-side operations, then the
selection of the IN endpoint, then only IN-side operations; so there are
exactly two selections, every OUT-side operation precedes the selection of
the IN endpoint, and (the two addresses being distinct) each endpoint is
selected exactly once.  The IN-side sequence does not depend on the OUT half:
any other configured call, whatever its OUT-received and read/write-allowed
answers, that gets the same readiness answer and (when ready) the same sample
makes the same IN-side calls. -/
theorem C17_halves_ordered_independent (c : Consts) (env : Env) (w : World) (buf : Report)
    (hcfg : w.USB_DeviceState = c.DEVICE_STATE_Configured) :
    emitted w (HID_Task c env w buf) =
      Call.Endpoint_SelectEndpoint c.JOYSTICK_OUT_EPADDR ::
        (emitted w (HID_Task_OUT c env w)).tail ++
      Call.Endpoint_SelectEndpoint c.JOYSTICK_IN_EPADDR ::
        (emitted (HID_Task_OUT c env w) (HID_Task c env w buf)).tail ∧
    (emitted w (HID_Task_OUT c env w)).tail.all Call.isOUTside = true ∧
    (emitted (HID_Task_OUT c env w) (HID_Task c env w buf)).tail.all Call.isINside = true ∧
    (c.JOYSTICK_OUT_EPADDR ≠ c.JOYSTICK_IN_EPADDR →
      (emitted w (HID_Task c env w buf)).count
        (Call.Endpoint_SelectEndpoint c.JOYSTICK_OUT_EPADDR) = 1 ∧
      (emitted w (HID_Task c env w buf)).count
        (Call.Endpoint_SelectEndpoint c.JOYSTICK_IN_EPADDR) = 1) ∧
    (∀ (env' : Env) (w' : World) (buf' : Report),
      w'.USB_DeviceState = c.DEVICE_STATE_Configured →
      buf'.rest.length = buf.rest.length →
      env'.Endpoint_IsINReady (atINReady c env' w') =
        env.Endpoint_IsINReady (atINReady c env w) →
      (env.Endpoint_IsINReady (atINReady c env w) = true →
        (Keypad_Read c env' (atSample c env' w')).2 =
          (Keypad_Read c env (atSample c env w)).2) →
      emitted (HID_Task_OUT c env' w') (HID_Task c env' w' buf') =
        emitted (HID_Task_OUT c env w) (HID_Task c env w buf)) := by
  have hall := HID_Task_emitted c env w buf hcfg
  have hin := HID_Task_IN_emitted c env w buf hcfg
  have hout := HID_Task_OUT_emitted c env w
  refine ⟨?_, ?_, ?_, ?_, ?_⟩
  · rw [hall, hin, hout]
    simp
  · rw [hout]
    split_ifs <;> simp [Call.isOUTside]
  · rw [hin]
    split_ifs <;> simp [Call.isINside]
  · intro hne
    rw [hall, hin, hout]
    constructor
    · split_ifs <;> simp [List.count_cons, hne, Ne.symm hne]
    · split_ifs <;> simp [List.count_cons, hne, Ne.symm hne]
  · intro env' w' buf' hcfg' hlen hready hsample
    rw [hin, HID_Task_IN_emitted c env' w' buf' hcfg', hready]
    by_cases hr : env.Endpoint_IsINReady (atINReady c env w) = true
    · rw [if_pos hr, if_pos hr,
        GetNextReport_congr c env' env (atSample c env' w') (atSample c env w) buf' buf hlen
          (fun i _ => by rw [hsample hr])]
    · rw [if_neg hr, if_neg hr]

theorem C17_halves_ordered_independent_witness :
    (sampleWorld 4).USB_DeviceState = sampleConsts.DEVICE_STATE_Configured ∧
    emitted (HID_Task_OUT sampleConsts (sampleEnv 0x0201 false false true) (sampleWorld 4))
      (HID_Task sampleConsts (sampleEnv 0x0201 false false true) (sampleWorld 4)
        (memset_zero dirtyReport)) =
    emitted (HID_Task_OUT sampleConsts (sampleEnv 0x0201 true true true) (sampleWorld 4))
      (HID_Task sampleConsts (sampleEnv 0x0201 true true true) (sampleWorld 4) dirtyReport) :=
  ⟨by decide,
   (C17_halves_ordered_independent sampleConsts (sampleEnv 0x0201 true true true)
      (sampleWorld 4) dirtyReport (by decide)).2.2.2.2
      (sampleEnv 0x0201 false false true) (sampleWorld 4) (memset_zero dirtyReport)
      (by decide) (by decide) (by decide) (fun _ => by decide)⟩

/-! ## Algebra of the button encoding and the keypad sampler -/

theorem sel_or (x y : Bool) (f : Nat) : sel (x || y) f = sel x f ||| sel y f := by
  cases x <;> cases y <;> simp [sel]

theorem or_interleave (a0 a1 a3 a4 a6 a8 a9 a11 b0 b1 b3 b4 b6 b8 b9 b11 : Nat) :
    (a0 ||| b0) ||| (a1 ||| b1) ||| (a3 ||| b3) ||| (a4 ||| b4) ||| (a6 ||| b6) |||
      (a8 ||| b8) ||| (a9 ||| b9) ||| (a11 ||| b11) =
    (a0 ||| a1 ||| a3 ||| a4 ||| a6 ||| a8 ||| a9 ||| a11) |||
      (b0 ||| b1 ||| b3 ||| b4 ||| b6 ||| b8 ||| b9 ||| b11) := by
  apply Nat.eq_of_testBit_eq
  intro i
  simp only [Nat.testBit_or]
  cases a0.testBit i <;> cases a1.testBit i <;> cases a3.testBit i <;> cases a4.testBit i <;>
    cases a6.testBit i <;> cases a8.testBit i <;> cases a9.testBit i <;>
    cases a11.testBit i <;> simp

/-- The button field of a call whose sample is `a ||| b` is the OR of the
button fields of a call whose sample is `a` and one whose sample is `b`. -/
theorem GetNextReport_Button_or (c : Consts) (ea eb eab : Env) (wa wb wab : World)
    (fa fb fab : Report)
    (hab : (Keypad_Read c eab wab).2 = (Keypad_Read c ea wa).2 ||| (Keypad_Read c eb wb).2) :
    (GetNextReport c eab wab fab).2.Button =
      (GetNextReport c ea wa fa).2.Button ||| (GetNextReport c eb wb fb).2.Button := by
  rw [GetNextReport_Button, GetNextReport_Button, GetNextReport_Button, hab]
  simp only [Nat.testBit_or, sel_or]
  rw [show (65536 : Nat) = 2 ^ 16 from rfl, ← or_mod_two_pow, or_interleave]

/-- C18: the button part of the encoding is a homomorphism for bitwise OR: for
calls whose samples are `a`, `b` and `a | b`, `Button(a | b) = Button(a) |
Button(b)`, and the sample 0 gives `Button = 0`; hence every bit set in
`Button(a)` is set in `Button(a | b)`.  The axis does not behave so: when `a`
has bit 2 set and bit 10 clear and `b` has bit 10 set, `LX` is `JOYSTICK_MIN`
for `a` and back at `JOYSTICK_DEFAULT` for `a | b` (levels distinct and
representable). -/
theorem C18_button_or_homomorphism (c : Consts) (ea eb eab : Env) (wa wb wab : World)
    (fa fb fab : Report) (a b : Nat)
    (ha : (Keypad_Read c ea wa).2 = a) (hb : (Keypad_Read c eb wb).2 = b)
    (hab : (Keypad_Read c eab wab).2 = a ||| b) :
    (GetNextReport c eab wab fab).2.Button =
      (GetNextReport c ea wa fa).2.Button ||| (GetNextReport c eb wb fb).2.Button ∧
    (a = 0 → (GetNextReport c ea wa fa).2.Button = 0) ∧
    (∀ j : Nat, (GetNextReport c ea wa fa).2.Button.testBit j = true →
      (GetNextReport c eab wab fab).2.Button.testBit j = true) ∧
    (c.LevelsFit → c.LevelsDistinct →
      a.testBit 2 = true → a.testBit 10 = false → b.testBit 10 = true →
      (GetNextReport c ea wa fa).2.LX = c.JOYSTICK_MIN ∧
      (GetNextReport c eab wab fab).2.LX = c.JOYSTICK_DEFAULT ∧
      (GetNextReport c eab wab fab).2.LX ≠ (GetNextReport c ea wa fa).2.LX) := by
  have hor := GetNextReport_Button_or c ea eb eab wa wb wab fa fb fab (by rw [hab, ha, hb])
  refine ⟨hor, ?_, ?_, ?_⟩
  · intro h0
    rw [GetNextReport_Button, ha, h0]
    simp [sel]
  · intro j hj
    rw [hor, Nat.testBit_or, hj, Bool.true_or]
  · intro hfit hdist a2 a10 b10
    obtain ⟨hmin, hdef, hmax, -⟩ := hfit
    obtain ⟨h1, -, -⟩ := hdist
    have ea1 : (GetNextReport c ea wa fa).2.LX = c.JOYSTICK_MIN := by
      rw [GetNextReport_LX, ha, a2, a10]
      simpa using Nat.mod_eq_of_lt hmin
    have eab1 : (GetNextReport c eab wab fab).2.LX = c.JOYSTICK_DEFAULT := by
      rw [GetNextReport_LX, hab]
      simp only [Nat.testBit_or, a2, a10, b10]
      simpa using Nat.mod_eq_of_lt hdef
    refine ⟨ea1, eab1, ?_⟩
    rw [ea1, eab1]
    exact Ne.symm h1

theorem C18_button_or_homomorphism_witness :
    (Keypad_Read sampleConsts (sampleEnv 0x0005 false false false) (sampleWorld 4)).2 = 0x0005 ∧
    (Keypad_Read sampleConsts (sampleEnv 0x0600 false false false) (sampleWorld 4)).2 = 0x0600 ∧
    (Keypad_Read sampleConsts (sampleEnv 0x0605 false false false) (sampleWorld 4)).2 =
      0x0005 ||| 0x0600 ∧
    (GetNextReport sampleConsts (sampleEnv 0x0605 false false false) (sampleWorld 4)
      dirtyReport).2.Button =
      (GetNextReport sampleConsts (sampleEnv 0x0005 false false false) (sampleWorld 4)
        dirtyReport).2.Button |||
      (GetNextReport sampleConsts (sampleEnv 0x0600 false false false) (sampleWorld 4)
        dirtyReport).2.Button :=
  ⟨by decide, by decide, by decide,
   (C18_button_or_homomorphism sampleConsts (sampleEnv 0x0005 false false false)
      (sampleEnv 0x0600 false false false) (sampleEnv 0x0605 false false false)
      (sampleWorld 4) (sampleWorld 4) (sampleWorld 4) dirtyReport dirtyReport dirtyReport
      0x0005 0x0600 (by decide) (by decide) (by decide)).1⟩

theorem Keypad_Read_bytesEnv (c : Consts) (w : World) (b0 b1 : Nat)
    (h0 : b0 < 256) (h1 : b1 < 256) :
    (Keypad_Read c (bytesEnv w b0 b1) w).2 = b0 + 256 * b1 := by
  rw [Keypad_Read_value]
  simp [SPI_ReceiveByte, bytesEnv, World.log, Nat.mod_eq_of_lt h0, Nat.mod_eq_of_lt h1]

/-- C19: `Keypad_Read` makes exactly two SPI byte receptions and returns
`b0 + 256 * b1`, where `b0` is the first byte received and `b1` the second
(a value below `2 ^ 16`, so the reduction modulo `2 ^ 16` changes nothing):
bits 0-7 of the result are those of `b0` and bits 8-15 those of `b1`.  Every
pair of bytes, and so every 16-bit state, is produced by some environment. -/
theorem C19_Keypad_Read_two_bytes (c : Consts) (env : Env) (w : World) (b0 b1 : Nat)
    (h0 : (SPI_ReceiveByte env
      { w with PORTB := (w.PORTB ||| (1 <<< c.SH_LD)) % 256 }).2 = b0)
    (h1 : (SPI_ReceiveByte env (SPI_ReceiveByte env
      { w with PORTB := (w.PORTB ||| (1 <<< c.SH_LD)) % 256 }).1).2 = b1) :
    emitted w (Keypad_Read c env w).1 = [Call.SPI_ReceiveByte, Call.SPI_ReceiveByte] ∧
    b0 < 256 ∧ b1 < 256 ∧
    (Keypad_Read c env w).2 = b0 + 256 * b1 ∧
    (Keypad_Read c env w).2 = (b0 + 256 * b1) % 2 ^ 16 ∧
    (∀ i : Nat, i < 8 →
      (Keypad_Read c env w).2.testBit i = b0.testBit i ∧
      (Keypad_Read c env w).2.testBit (8 + i) = b1.testBit i) ∧
    (∀ x0 x1 : Nat, x0 < 256 → x1 < 256 →
      ∃ env' : Env, (Keypad_Read c env' w).2 = x0 + 256 * x1) ∧
    (∀ raw : Nat, raw < 65536 → ∃ env' : Env, (Keypad_Read c env' w).2 = raw) := by
  have hb0 : b0 < 256 := by
    rw [← h0]
    exact Nat.mod_lt _ (by decide)
  have hb1 : b1 < 256 := by
    rw [← h1]
    exact Nat.mod_lt _ (by decide)
  have hv : (Keypad_Read c env w).2 = b0 + 256 * b1 := by
    rw [Keypad_Read_value, h0, h1]
  refine ⟨emitted_of_append _ _ _ (Keypad_Read_trace c env w), hb0, hb1, hv, ?_, ?_, ?_, ?_⟩
  · rw [hv]
    exact (Nat.mod_eq_of_lt (by omega)).symm
  · intro i hi
    have hb0' : b0 < 2 ^ 8 := hb0
    rw [hv, Nat.add_comm b0, show (256 : Nat) = 2 ^ 8 from rfl,
      Nat.testBit_mul_pow_two_add b1 hb0' i, Nat.testBit_mul_pow_two_add b1 hb0' (8 + i)]
    constructor
    · rw [if_pos hi]
    · rw [if_neg (by omega), Nat.add_sub_cancel_left]
  · intro x0 x1 hx0 hx1
    exact ⟨bytesEnv w x0 x1, Keypad_Read_bytesEnv c w x0 x1 hx0 hx1⟩
  · intro raw hraw
    refine ⟨bytesEnv w (raw % 256) (raw / 256), ?_⟩
    rw [Keypad_Read_bytesEnv c w _ _ (Nat.mod_lt _ (by decide)) (by omega)]
    omega

theorem C19_Keypad_Read_two_bytes_witness :
    (SPI_ReceiveByte (sampleEnv 0x0ABC false false false)
      { sampleWorld 4 with
        PORTB := ((sampleWorld 4).PORTB ||| (1 <<< sampleConsts.SH_LD)) % 256 }).2 = 0xBC ∧
    (SPI_ReceiveByte (sampleEnv 0x0ABC false false false)
      (SPI_ReceiveByte (sampleEnv 0x0ABC false false false)
        { sampleWorld 4 with
          PORTB := ((sampleWorld 4).PORTB ||| (1 <<< sampleConsts.SH_LD)) % 256 }).1).2
      = 0x0A ∧
    (Keypad_Read sampleConsts (sampleEnv 0x0ABC false false false) (sampleWorld 4)).2 =
      0xBC + 256 * 0x0A :=
  ⟨by decide, by decide,
   (C19_Keypad_Read_two_bytes sampleConsts (sampleEnv 0x0ABC false false false) (sampleWorld 4)
      0xBC 0x0A (by decide) (by decide)).2.2.2.1⟩

end SwitchKeypad
